import Mathlib

/-!
Verification development for the room-list diff-reconciliation engine of the
`matrix-ui-serializable` repository.

The definitions below are a shallow embedding of the Rust sources:
  * `src/src/room/joined_room.rs` (room snapshots, `add_new_room`, `update_room`,
    `remove_room`, the `ALL_JOINED_ROOMS` keyed session store),
  * `src/src/init/sync.rs` (the diff-batch processing loop of `sync` and
    `optimize_remove_then_add_into_update`),
  * `src/src/room/rooms_list.rs` (the `RoomsListUpdate` queue and the
    `RoomsList::handle_rooms_list_updates` drain loop),
  * `src/src/room/room_screen.rs` (`RoomScreen::process_timeline_updates`,
    `RoomScreen::show_timeline`, `find_new_item_matching_current_item`).

External SDK values (room ids, display names, avatar references, timestamps,
power levels) are modelled as `Nat` / `String` data.  Calls into the external
SDK that merely read room data are modelled as fields of the room-snapshot
structure; the one fallible SDK call (building a live timeline handle) is
modelled by a boolean field recording whether that call would succeed.
Rust panics (the `imbl::Vector` out-of-bounds panics and `assert!`/`expect`
failures) are modelled as explicit error outcomes of an `Except`.
-/

namespace MatrixUi

/-- Lifecycle state of a room, mirroring `matrix_sdk::RoomState`
(variants used in `joined_room.rs`: Knocked, Banned, Left, Invited, Joined). -/
inductive RoomState where
  | knocked
  | banned
  | left
  | invited
  | joined
deriving DecidableEq

/-- Snapshot of a room as captured by `RoomListServiceRoomInfo::from_room`
in `src/src/room/joined_room.rs` (lines 73-116).  The fields up to `heroes`
are the struct fields; the remaining fields model the read-only accessors of
the inner `matrix_sdk::Room` handle that the reconciler consults
(`canonical_alias`, `alt_aliases`, `direct_targets`, `invite_details`,
`latest_event`) plus whether `timeline_builder().build()` would succeed. -/
structure RoomListServiceRoomInfo where
  room_id : Nat
  state : RoomState
  is_direct : Bool
  is_tombstoned : Bool
  tags : Option (List String)
  topic : Option String
  user_power_levels : Option Nat
  num_unread_messages : Nat
  num_unread_mentions : Nat
  display_name : Option String
  room_avatar : Option Nat
  heroes : List Nat
  canonical_alias : Option String
  alt_aliases : List String
  direct_targets : List Nat
  inviter : Option Nat
  latest : Option (Nat × String)
  timeline_build_ok : Bool
deriving DecidableEq

/-- Abbreviation used throughout: the reconciler manipulates room snapshots. -/
abbrev Room := RoomListServiceRoomInfo

/-- The number of unread messages in a room (`UnreadMessageCount` in
`joined_room.rs`, lines 119-125). -/
inductive UnreadMessageCount where
  | unknown
  | known (count : Nat)
deriving DecidableEq

/-- Status label of the rooms collection (`RoomsCollectionStatus` in
`rooms_list.rs`, lines 266-271). -/
inductive RoomsCollectionStatus where
  | notLoaded (message : String)
  | loading (message : String)
  | loaded (message : String)
  | errorStatus (message : String)
deriving DecidableEq

/-- UI-related info about an invited room, as constructed in `add_new_room`
(`joined_room.rs` lines 176-190).  The defining module
`src/src/room/invited_room.rs` is not under `src/`; the fields are
reconstructed from that construction site.  The `invite_state` field
(initialised to its default) is omitted because no operation modelled here
reads or writes it. -/
structure InvitedRoomInfo where
  room_id : Nat
  room_name : Option String
  inviter_info : Option Nat
  room_avatar : Option Nat
  canonical_alias : Option String
  alt_aliases : List String
  latest : Option (Nat × String)
  is_direct : Bool
deriving DecidableEq

/-- UI-related info about a joined room (`JoinedRoomInfo` in `rooms_list.rs`,
lines 130-168). -/
structure JoinedRoomInfo where
  room_id : Nat
  room_name : Option String
  num_unread_messages : Nat
  num_unread_mentions : Nat
  canonical_alias : Option String
  alt_aliases : List String
  tags : List String
  topic : Option String
  latest : Option (Nat × String)
  avatar : Option Nat
  has_been_paginated : Bool
  is_selected : Bool
  is_direct : Bool
  direct_user_id : Option Nat
  is_tombstoned : Bool
  heroes : List Nat
deriving DecidableEq

/-- The typed updates of the rooms-list update queue (`RoomsListUpdate` in
`rooms_list.rs`, lines 49-112). -/
inductive RoomsListUpdate where
  | notLoaded
  | loadedRooms (max_rooms : Option Nat)
  | addInvitedRoom (info : InvitedRoomInfo)
  | addJoinedRoom (info : JoinedRoomInfo)
  | clearRooms
  | updateLatestEvent (room_id : Nat) (timestamp : Nat) (latest_message_text : String)
  | updateNumUnreadMessages (room_id : Nat) (unread_messages : UnreadMessageCount)
      (unread_mentions : Nat)
  | updateRoomName (room_id : Nat) (new_room_name : String)
  | updateTopic (room_id : Nat) (new_topic : String)
  | updateRoomAvatar (room_id : Nat) (avatar : Nat)
  | updateIsDirect (room_id : Nat) (is_direct : Bool)
  | removeRoom (room_id : Nat) (new_state : RoomState)
  | tagsUpdate (room_id : Nat) (new_tags : List String)
  | statusUpdate (status : RoomsCollectionStatus)
  | tombstonedRoom (room_id : Nat)
  | applyFilter (keywords : String)
deriving DecidableEq

/-- Side effects performed by the reconciler functions in `joined_room.rs`:
mutations of the `ALL_JOINED_ROOMS` keyed session store
(`insert_room_details`, `remove_room_details`, `clear_all_rooms`),
enqueueing a rooms-list update (`enqueue_rooms_list_update`), the
room-list-service subscription (`subscribe_to_rooms`), and delivering a
power-levels update directly to a room session
(`timeline_update_sender.send(TimelineUpdate::UserPowerLevels(..))`). -/
inductive Effect where
  | subscribeToRoom (room_id : Nat)
  | insertRoomDetails (room_id : Nat)
  | removeRoomDetails (room_id : Nat)
  | clearAllRooms
  | enqueueRoomsListUpdate (u : RoomsListUpdate)
  | sendUserPowerLevels (room_id : Nat) (power : Nat)
deriving DecidableEq

/-- The key set of the `ALL_JOINED_ROOMS` map (`BTreeMap<OwnedRoomId, ..>` in
`joined_room.rs`, line 504).  Only the key set matters for the properties
proved here; map insertion on an existing key leaves the key set unchanged. -/
abbrev JoinedStore := List Nat

/-- Effect of `insert_room_details` on the key set of `ALL_JOINED_ROOMS`. -/
def insertDetailsKey (joined : JoinedStore) (room_id : Nat) : JoinedStore :=
  if joined.contains room_id then joined else joined ++ [room_id]

/-- Application of one effect to the `ALL_JOINED_ROOMS` key set. -/
def applyEffect (joined : JoinedStore) : Effect → JoinedStore
  | .subscribeToRoom _ => joined
  | .insertRoomDetails room_id => insertDetailsKey joined room_id
  | .removeRoomDetails room_id => joined.erase room_id
  | .clearAllRooms => []
  | .enqueueRoomsListUpdate _ => joined
  | .sendUserPowerLevels _ _ => joined

/-- Application of a trace of effects to the `ALL_JOINED_ROOMS` key set. -/
def applyEffects (joined : JoinedStore) (trace : List Effect) : JoinedStore :=
  trace.foldl applyEffect joined

/-- The rooms-list updates enqueued along a trace of effects, in order. -/
def eventsOf (trace : List Effect) : List RoomsListUpdate :=
  trace.filterMap fun e =>
    match e with
    | .enqueueRoomsListUpdate u => some u
    | _ => none

/-- Failure outcomes of the reconciliation loop: the `anyhow` error produced
when building a live timeline handle fails (`joined_room.rs` lines 202-217),
and a thread panic from an out-of-bounds `imbl::Vector::set`/`insert`. -/
inductive SyncError where
  | timelineBuildFailed (room_id : Nat)
  | panicOutOfBounds (index : Nat)
deriving DecidableEq

/-- The direct-peer user id computed at the top of `add_new_room`
(`joined_room.rs` lines 132-142). -/
def direct_user_id_option (new_room : Room) : Option Nat :=
  if new_room.is_direct ∧ new_room.direct_targets.length = 1 then
    new_room.direct_targets.head?
  else
    none

/-- Translation of `remove_room` (`joined_room.rs` lines 493-499):
`remove_room_details` on the session store, then enqueue a `RemoveRoom`
update carrying the removed room id and its state. -/
def remove_room (room : Room) : List Effect :=
  [.removeRoomDetails room.room_id,
   .enqueueRoomsListUpdate (.removeRoom room.room_id room.state)]

/-- Translation of `add_new_room` (`joined_room.rs` lines 128-274).
Knocked, Banned and Left rooms are explicit no-ops (TODO markers in the
source).  An Invited room enqueues an `AddInvitedRoom` update.  A Joined room
subscribes to the room, builds the live timeline handle (an error if the
build fails), inserts the `JoinedRoomDetails` into `ALL_JOINED_ROOMS`, and
only then enqueues the `AddJoinedRoom` update. -/
def add_new_room (new_room : Room) : Except SyncError (List Effect) :=
  match new_room.state with
  | .knocked => .ok []
  | .banned => .ok []
  | .left => .ok []
  | .invited =>
      .ok [.enqueueRoomsListUpdate (.addInvitedRoom
        { room_id := new_room.room_id
          room_name := new_room.display_name
          inviter_info := new_room.inviter
          room_avatar := new_room.room_avatar
          canonical_alias := new_room.canonical_alias
          alt_aliases := new_room.alt_aliases
          latest := new_room.latest
          is_direct := new_room.is_direct })]
  | .joined =>
      if new_room.timeline_build_ok then
        .ok [.subscribeToRoom new_room.room_id,
             .insertRoomDetails new_room.room_id,
             .enqueueRoomsListUpdate (.addJoinedRoom
               { room_id := new_room.room_id
                 room_name := new_room.display_name
                 num_unread_messages := new_room.num_unread_messages
                 num_unread_mentions := new_room.num_unread_mentions
                 canonical_alias := new_room.canonical_alias
                 alt_aliases := new_room.alt_aliases
                 tags := new_room.tags.getD []
                 topic := new_room.topic
                 latest := new_room.latest
                 avatar := new_room.room_avatar
                 has_been_paginated := false
                 is_selected := false
                 is_direct := new_room.is_direct
                 direct_user_id := direct_user_id_option new_room
                 is_tombstoned := new_room.is_tombstoned
                 heroes := new_room.heroes })]
      else
        .error (.timelineBuildFailed new_room.room_id)

/-- Modelled from the spec: `update_latest_event` lives in
`src/src/events/timeline.rs`, which is not under `src/`.  Per the spec, the
latest event of a Joined room is unconditionally re-derived on every update
and delivered as an `UpdateLatestEvent` rooms-list update (there is no
timestamp gating). -/
def update_latest_event (room : Room) : List Effect :=
  match room.latest with
  | some (timestamp, text) =>
      [.enqueueRoomsListUpdate (.updateLatestEvent room.room_id timestamp text)]
  | none => []

/-- The field diffs of `update_room` that are checked for every room kind
(`joined_room.rs` lines 334-370): avatar, display name and topic.  Each
emits its granular update exactly when the field differs from the previous
snapshot and the new value is present. -/
def update_room_common_effects (old_room new_room : Room) : List Effect :=
  (if old_room.room_avatar ≠ new_room.room_avatar then
    match new_room.room_avatar with
    | some avatar =>
        [Effect.enqueueRoomsListUpdate
          (.updateRoomAvatar new_room.room_id avatar)]
    | none => []
  else []) ++
  (if old_room.display_name ≠ new_room.display_name then
    match new_room.display_name with
    | some new_room_name =>
        [Effect.enqueueRoomsListUpdate
          (.updateRoomName new_room.room_id new_room_name)]
    | none => []
  else []) ++
  (if old_room.topic ≠ new_room.topic then
    match new_room.topic with
    | some new_topic =>
        [Effect.enqueueRoomsListUpdate
          (.updateTopic new_room.room_id new_topic)]
    | none => []
  else [])

/-- The field diffs of `update_room` that only apply to Joined rooms
(`joined_room.rs` lines 375-480): unconditional latest-event re-derivation,
tags, unread counts, direct-ness, the false-to-true tombstone transition,
and power levels (delivered to the room session when one exists). -/
def update_room_joined_effects (old_room new_room : Room)
    (joined : JoinedStore) : List Effect :=
  if new_room.state = .joined then
    update_latest_event new_room ++
    (if old_room.tags ≠ new_room.tags then
      [Effect.enqueueRoomsListUpdate
        (.tagsUpdate new_room.room_id (new_room.tags.getD []))]
    else []) ++
    (if old_room.num_unread_messages ≠ new_room.num_unread_messages ∨
        old_room.num_unread_mentions ≠ new_room.num_unread_mentions then
      [Effect.enqueueRoomsListUpdate
        (.updateNumUnreadMessages new_room.room_id
          (.known new_room.num_unread_messages) new_room.num_unread_mentions)]
    else []) ++
    (if old_room.is_direct ≠ new_room.is_direct then
      [Effect.enqueueRoomsListUpdate
        (.updateIsDirect new_room.room_id new_room.is_direct)]
    else []) ++
    (if ¬ old_room.is_tombstoned ∧ new_room.is_tombstoned then
      [Effect.enqueueRoomsListUpdate (.tombstonedRoom new_room.room_id)]
    else []) ++
    (match new_room.user_power_levels with
    | some nupl =>
        if (match old_room.user_power_levels with
            | none => true
            | some oupl => oupl ≠ nupl) then
          if joined.contains new_room.room_id then
            [Effect.sendUserPowerLevels new_room.room_id nupl]
          else []
        else []
    | none => [])
  else []

/-- Translation of `update_room` (`joined_room.rs` lines 277-490).
When the two snapshots share a room id and the lifecycle state changed, the
call routes by the new state (Banned/Left to `remove_room`, Joined/Invited
to `add_new_room`, Knocked is a no-op).  When the state is unchanged, the
avatar, display name and topic are diffed for every room kind, and for
Joined rooms the latest event is re-derived and tags, unread counts,
direct-ness, the tombstone transition and power levels are diffed.  When the
room ids differ, the old room is removed and the new one added. -/
def update_room (old_room new_room : Room) (joined : JoinedStore) :
    Except SyncError (List Effect) :=
  if old_room.room_id = new_room.room_id then
    if old_room.state ≠ new_room.state then
      match new_room.state with
      | .banned => .ok (remove_room new_room)
      | .left => .ok (remove_room new_room)
      | .joined => add_new_room new_room
      | .invited => add_new_room new_room
      | .knocked => .ok []
    else
      .ok (update_room_common_effects old_room new_room ++
           update_room_joined_effects old_room new_room joined)
  else
    match add_new_room new_room with
    | .error e => .error e
    | .ok trace => .ok (remove_room old_room ++ trace)

/-! The diff-batch processing loop of `sync` (`src/src/init/sync.rs`). -/

/-- The positional vector diffs consumed by the sync loop
(`eyeball_im::VectorDiff`), with each carried value already turned into a
`RoomListServiceRoomInfo` snapshot. -/
inductive VectorDiff where
  | append (values : List Room)
  | clear
  | pushFront (value : Room)
  | pushBack (value : Room)
  | popFront
  | popBack
  | insert (index : Nat) (value : Room)
  | set (index : Nat) (value : Room)
  | remove (index : Nat)
  | truncate (length : Nat)
  | reset (values : List Room)
deriving DecidableEq

/-- Semantics of `imbl::Vector::insert`: inserting at `index` is legal for
`index ≤ length` and panics otherwise (`none`). -/
def vectorInsert (l : List Room) (index : Nat) (value : Room) :
    Option (List Room) :=
  match l, index with
  | l, 0 => some (value :: l)
  | [], _ + 1 => none
  | x :: xs, n + 1 => (vectorInsert xs n value).map (fun ys => x :: ys)

/-- Semantics of `imbl::Vector::set`: replacing at `index` is legal for
`index < length` and panics otherwise (`none`). -/
def vectorSet (l : List Room) (index : Nat) (value : Room) :
    Option (List Room) :=
  if index < l.length then some (l.set index value) else none

/-- Translation of `optimize_remove_then_add_into_update`
(`sync.rs` lines 206-256).  Inputs: the room just removed from the mirror,
the peeked next diff of the batch, the mirror after the removal, and the
session key set (read by `update_room`).  Returned: the effects, the mirror
after any insertion done by the matched arm, and the
`next_diff_was_handled` flag telling the caller to consume the next diff.
When no arm matches, `remove_room` runs. -/
def optimize_remove_then_add_into_update (room : Room)
    (next_diff : Option VectorDiff) (all_known_rooms : List Room)
    (joined : JoinedStore) :
    Except SyncError (List Effect × List Room × Bool) :=
  match next_diff with
  | some (.insert insert_index new_room) =>
      if room.room_id = new_room.room_id then
        match update_room room new_room joined with
        | .error e => .error e
        | .ok trace =>
            match vectorInsert all_known_rooms insert_index new_room with
            | some rooms => .ok (trace, rooms, true)
            | none => .error (.panicOutOfBounds insert_index)
      else
        .ok (remove_room room, all_known_rooms, false)
  | some (.pushFront new_room) =>
      if room.room_id = new_room.room_id then
        match update_room room new_room joined with
        | .error e => .error e
        | .ok trace => .ok (trace, new_room :: all_known_rooms, true)
      else
        .ok (remove_room room, all_known_rooms, false)
  | some (.pushBack new_room) =>
      if room.room_id = new_room.room_id then
        match update_room room new_room joined with
        | .error e => .error e
        | .ok trace => .ok (trace, all_known_rooms ++ [new_room], true)
      else
        .ok (remove_room room, all_known_rooms, false)
  | _ => .ok (remove_room room, all_known_rooms, false)

/-- The `for new_room in new_rooms` loop shared by the `Append` and `Reset`
arms of the sync loop (`sync.rs` lines 63-68 and 183-188): each value is
passed to `add_new_room` (an error aborts the whole loop) and pushed onto
the back of the mirror. -/
def add_rooms_sequentially (values : List Room) (mirror : List Room) :
    Except SyncError (List Room × List Effect) :=
  match values with
  | [] => .ok (mirror, [])
  | new_room :: rest =>
      match add_new_room new_room with
      | .error e => .error e
      | .ok trace =>
          match add_rooms_sequentially rest (mirror ++ [new_room]) with
          | .error e => .error e
          | .ok (mirror2, trace2) => .ok (mirror2, trace ++ trace2)

/-- One fuel-indexed unfolding of the `while all_known_rooms.len() > length`
pop-back loop of the `Truncate` arm (`sync.rs` lines 161-165): rooms are
popped from the back one at a time and each popped room goes through
`remove_room`.  The fuel only bounds the iteration count; the loop body
shrinks the mirror by one each round, so `mirror.length` fuel is always
enough. -/
def pop_back_rooms_fuel : Nat → List Room → Nat → List Room × List Effect
  | 0, mirror, _ => (mirror, [])
  | fuel + 1, mirror, length =>
      if length < mirror.length then
        match mirror.getLast? with
        | none => (mirror, [])
        | some room =>
            let result := pop_back_rooms_fuel fuel mirror.dropLast length
            (result.1, remove_room room ++ result.2)
      else
        (mirror, [])

/-- The `while all_known_rooms.len() > length` pop-back loop of the
`Truncate` arm (`sync.rs` lines 161-165), also used with `length = 0` by the
`Reset` arm (lines 176-178). -/
def pop_back_rooms_down_to (mirror : List Room) (length : Nat) :
    List Room × List Effect :=
  pop_back_rooms_fuel mirror.length mirror length

/-- Translation of the inner diff-processing loop of `sync`
(`sync.rs` lines 57-191) over one batch, given as the ordered list of its
diff operations.  The state is the local mirror (`all_known_rooms`) and the
`ALL_JOINED_ROOMS` key set; the result carries the final mirror, the final
key set, and the full effect trace.  The lookahead of the remove-type arms
peeks at the head of the remaining operations and consumes it when
`optimize_remove_then_add_into_update` reports it handled.  The unguarded
`all_known_rooms.set(index, ..)` of the `Set` arm panics on an
out-of-bounds index (after the error log), which surfaces here as
`SyncError.panicOutOfBounds`. -/
def sync_batch : List VectorDiff → List Room → JoinedStore →
    Except SyncError (List Room × JoinedStore × List Effect)
  | [], mirror, joined => .ok (mirror, joined, [])
  | diff :: rest, mirror, joined =>
    match diff with
    | .append new_rooms =>
        match add_rooms_sequentially new_rooms mirror with
        | .error e => .error e
        | .ok (mirror2, trace) =>
            match sync_batch rest mirror2 (applyEffects joined trace) with
            | .error e => .error e
            | .ok (m, j, t) => .ok (m, j, trace ++ t)
    | .clear =>
        let trace := [Effect.clearAllRooms,
                      Effect.enqueueRoomsListUpdate .clearRooms]
        match sync_batch rest [] (applyEffects joined trace) with
        | .error e => .error e
        | .ok (m, j, t) => .ok (m, j, trace ++ t)
    | .pushFront new_room =>
        match add_new_room new_room with
        | .error e => .error e
        | .ok trace =>
            match sync_batch rest (new_room :: mirror)
                (applyEffects joined trace) with
            | .error e => .error e
            | .ok (m, j, t) => .ok (m, j, trace ++ t)
    | .pushBack new_room =>
        match add_new_room new_room with
        | .error e => .error e
        | .ok trace =>
            match sync_batch rest (mirror ++ [new_room])
                (applyEffects joined trace) with
            | .error e => .error e
            | .ok (m, j, t) => .ok (m, j, trace ++ t)
    | .popFront =>
        match mirror with
        | [] =>
            sync_batch rest mirror joined
        | room :: mirror2 =>
            match optimize_remove_then_add_into_update room rest.head?
                mirror2 joined with
            | .error e => .error e
            | .ok (trace, mirror3, handled) =>
                if handled then
                  match rest with
                  | _ :: rest2 =>
                      (match sync_batch rest2 mirror3 (applyEffects joined trace) with
                      | .error e => .error e
                      | .ok (m, j, t) => .ok (m, j, trace ++ t))
                  | [] =>
                      .ok (mirror3, applyEffects joined trace, trace)
                else
                  match sync_batch rest mirror3 (applyEffects joined trace) with
                  | .error e => .error e
                  | .ok (m, j, t) => .ok (m, j, trace ++ t)
    | .popBack =>
        match mirror.getLast? with
        | none =>
            sync_batch rest mirror joined
        | some room =>
            match optimize_remove_then_add_into_update room rest.head?
                mirror.dropLast joined with
            | .error e => .error e
            | .ok (trace, mirror3, handled) =>
                if handled then
                  match rest with
                  | _ :: rest2 =>
                      (match sync_batch rest2 mirror3 (applyEffects joined trace) with
                      | .error e => .error e
                      | .ok (m, j, t) => .ok (m, j, trace ++ t))
                  | [] =>
                      .ok (mirror3, applyEffects joined trace, trace)
                else
                  match sync_batch rest mirror3 (applyEffects joined trace) with
                  | .error e => .error e
                  | .ok (m, j, t) => .ok (m, j, trace ++ t)
    | .insert index new_room =>
        match add_new_room new_room with
        | .error e => .error e
        | .ok trace =>
            match vectorInsert mirror index new_room with
            | none => .error (.panicOutOfBounds index)
            | some mirror2 =>
                match sync_batch rest mirror2 (applyEffects joined trace) with
                | .error e => .error e
                | .ok (m, j, t) => .ok (m, j, trace ++ t)
    | .set index changed_room =>
        match mirror.get? index with
        | some old_room =>
            match update_room old_room changed_room joined with
            | .error e => .error e
            | .ok trace =>
                match vectorSet mirror index changed_room with
                | none => .error (.panicOutOfBounds index)
                | some mirror2 =>
                    match sync_batch rest mirror2
                        (applyEffects joined trace) with
                    | .error e => .error e
                    | .ok (m, j, t) => .ok (m, j, trace ++ t)
        | none =>
            .error (.panicOutOfBounds index)
    | .remove remove_index =>
        match mirror.get? remove_index with
        | some room =>
            match optimize_remove_then_add_into_update room rest.head?
                (mirror.eraseIdx remove_index) joined with
            | .error e => .error e
            | .ok (trace, mirror3, handled) =>
                if handled then
                  match rest with
                  | _ :: rest2 =>
                      (match sync_batch rest2 mirror3 (applyEffects joined trace) with
                      | .error e => .error e
                      | .ok (m, j, t) => .ok (m, j, trace ++ t))
                  | [] =>
                      .ok (mirror3, applyEffects joined trace, trace)
                else
                  match sync_batch rest mirror3 (applyEffects joined trace) with
                  | .error e => .error e
                  | .ok (m, j, t) => .ok (m, j, trace ++ t)
        | none =>
            sync_batch rest mirror joined
    | .truncate length =>
        let popped := pop_back_rooms_down_to mirror length
        match sync_batch rest popped.1 (applyEffects joined popped.2) with
        | .error e => .error e
        | .ok (m, j, t) => .ok (m, j, popped.2 ++ t)
    | .reset new_rooms =>
        let popped := pop_back_rooms_down_to mirror 0
        let clear_trace := [Effect.clearAllRooms,
                            Effect.enqueueRoomsListUpdate .clearRooms]
        match add_rooms_sequentially new_rooms popped.1 with
        | .error e => .error e
        | .ok (mirror2, add_trace) =>
            let trace := popped.2 ++ clear_trace ++ add_trace
            match sync_batch rest mirror2 (applyEffects joined trace) with
            | .error e => .error e
            | .ok (m, j, t) => .ok (m, j, trace ++ t)

/-- Translation of the outer `while let Some(batch) = room_diff_stream.next()`
loop of `sync` (`sync.rs` lines 56-192): batches are applied strictly in
order; the `?` on each arm makes any error abort the whole loop. -/
def sync_batches : List (List VectorDiff) → List Room → JoinedStore →
    Except SyncError (List Room × JoinedStore × List Effect)
  | [], mirror, joined => .ok (mirror, joined, [])
  | batch :: batches, mirror, joined =>
      match sync_batch batch mirror joined with
      | .error e => .error e
      | .ok (mirror2, joined2, trace) =>
          match sync_batches batches mirror2 joined2 with
          | .error e => .error e
          | .ok (m, j, t) => .ok (m, j, trace ++ t)

/-! The rooms-list update-drain loop (`src/src/room/rooms_list.rs`). -/

/-- Keyed lookup in an association-list model of a `HashMap`. -/
def assocGet {β : Type} (l : List (Nat × β)) (key : Nat) : Option β :=
  (l.find? fun p => p.1 == key).map fun p => p.2

/-- Keyed insert in an association-list model of a `HashMap`: replaces the
entry in place when the key is present, appends otherwise. -/
def assocInsert {β : Type} (l : List (Nat × β)) (key : Nat) (value : β) :
    List (Nat × β) :=
  if (l.find? fun p => p.1 == key).isSome then
    l.map fun p => if p.1 == key then (key, value) else p
  else
    l ++ [(key, value)]

/-- Keyed removal in an association-list model of a `HashMap`. -/
def assocRemove {β : Type} (l : List (Nat × β)) (key : Nat) :
    List (Nat × β) :=
  l.filter fun p => p.1 != key

/-- Keyed in-place modification in an association-list model of a
`HashMap` (`get_mut` followed by field assignments). -/
def assocModify {β : Type} (l : List (Nat × β)) (key : Nat) (f : β → β) :
    List (Nat × β) :=
  l.map fun p => if p.1 == key then (p.1, f p.2) else p

/-- Modelled from the spec: `RoomDisplayFilter`
(`src/src/room/room_filter.rs` is not under `src/`).  The spec describes it
as a predicate rebuilt from the current filter keywords and applied to room
entries to decide display; with empty keywords every room is shown.  We
model it as a keyword-occurrence test on the displayable room name. -/
def room_display_filter (keywords : String) (room_name : Option String) :
    Bool :=
  if keywords = "" then
    true
  else
    match room_name with
    | some name => 1 < (name.splitOn keywords).length
    | none => false

/-- Modelled from the spec: the `sort_by_latest_ts` comparator of the
display-filter builder (`src/src/room/room_filter.rs` is not under `src/`).
Rooms with later latest-message timestamps sort first; rooms without a
latest message sort last. -/
def latest_ts_before (a b : Option (Nat × String)) : Bool :=
  match a, b with
  | some x, some y => y.1 ≤ x.1
  | some _, none => true
  | none, some _ => false
  | none, none => true

/-- Insertion of one element into a list sorted by `le`. -/
def insertSorted {α : Type} (le : α → α → Bool) (x : α) : List α → List α
  | [] => [x]
  | y :: ys => if le x y then x :: y :: ys else y :: insertSorted le x ys

/-- Stable insertion sort used to model the `sort_by` call of
`generate_displayed_invited_rooms` / `generate_displayed_joined_rooms`. -/
def insertionSort {α : Type} (le : α → α → Bool) : List α → List α
  | [] => []
  | x :: xs => insertSorted le x (insertionSort le xs)

/-- The rooms-list state (`RoomsList` in `rooms_list.rs`, lines 200-257).
The two keyed maps are modelled as association lists; the stored
`display_filter` closure is modelled by remembering the keywords it was
built from (`display_filter_keywords`).  The active-room fields
(`current_active_room`, `current_active_room_killer`) and the injected
state-updater handle are not part of the drain-loop state modelled here. -/
structure RoomsList where
  invited_rooms : List (Nat × InvitedRoomInfo)
  all_joined_rooms : List (Nat × JoinedRoomInfo)
  display_filter_keywords : String
  filter_keywords : String
  displayed_invited_rooms : List Nat
  displayed_direct_rooms : List Nat
  displayed_regular_rooms : List Nat
  status : RoomsCollectionStatus
  max_known_rooms : Option Nat
deriving DecidableEq

/-- Translation of `RoomsList::update_status_rooms_count`
(`rooms_list.rs` lines 675-687). -/
def RoomsList.update_status_rooms_count (st : RoomsList) : RoomsList :=
  let num_rooms := st.all_joined_rooms.length + st.invited_rooms.length
  { st with status :=
      match st.max_known_rooms with
      | some max_rooms =>
          let message := "Loaded " ++ toString num_rooms ++ " of " ++
            toString max_rooms ++ " total rooms."
          if num_rooms = max_rooms then
            .loaded message
          else
            .loading message
      | none => .loaded ("Loaded " ++ toString num_rooms ++ " rooms.") }

/-- Translation of `RoomsList::set_status_to_matching_rooms`
(`rooms_list.rs` lines 691-700). -/
def RoomsList.set_status_to_matching_rooms (st : RoomsList) : RoomsList :=
  let num_rooms := st.displayed_invited_rooms.length +
    st.displayed_direct_rooms.length + st.displayed_regular_rooms.length
  { st with status :=
      match num_rooms with
      | 0 => .loaded "No matching rooms found."
      | 1 => .loaded "Found 1 matching room."
      | n => .loaded ("Found " ++ toString n ++ " matching rooms.") }

/-- Translation of `RoomsList::generate_displayed_invited_rooms`
(`rooms_list.rs` lines 735-753): filter the invited map by the display
filter, sort by the latest-timestamp comparator, and keep the ids. -/
def RoomsList.generate_displayed_invited_rooms (st : RoomsList)
    (keywords : String) : List Nat :=
  let filtered := st.invited_rooms.filter fun p =>
    room_display_filter keywords p.2.room_name
  (insertionSort (fun a b => latest_ts_before a.2.latest b.2.latest) filtered).map
    fun p => p.1

/-- Translation of `RoomsList::generate_displayed_joined_rooms`
(`rooms_list.rs` lines 757-790): filter and sort the joined map, then push
each room id into the direct or the regular list by its `is_direct` flag.
Returns `(regular, direct)` as in the source. -/
def RoomsList.generate_displayed_joined_rooms (st : RoomsList)
    (keywords : String) : List Nat × List Nat :=
  let filtered := st.all_joined_rooms.filter fun p =>
    room_display_filter keywords p.2.room_name
  let sorted := insertionSort
    (fun a b => latest_ts_before a.2.latest b.2.latest) filtered
  (sorted.filterMap (fun p => if p.2.is_direct then none else some p.1),
   sorted.filterMap (fun p => if p.2.is_direct then some p.1 else none))

/-- Translation of `RoomsList::update_displayed_rooms`
(`rooms_list.rs` lines 704-731): rebuild the display filter from the
current keywords, regenerate the three displayed lists, and set the status
(room counts when unfiltered, match counts when filtered). -/
def RoomsList.update_displayed_rooms (st : RoomsList) : RoomsList :=
  let keywords := st.filter_keywords
  let invited := st.generate_displayed_invited_rooms keywords
  let joined := st.generate_displayed_joined_rooms keywords
  let st2 := { st with
    display_filter_keywords := keywords
    displayed_invited_rooms := invited
    displayed_regular_rooms := joined.1
    displayed_direct_rooms := joined.2 }
  if keywords = "" then
    st2.update_status_rooms_count
  else
    st2.set_status_to_matching_rooms

/-- Translation of one iteration of the `while let Some(update)` drain loop
of `RoomsList::handle_rooms_list_updates` (`rooms_list.rs` lines 304-610).
The `send_room_creation_request_and_await_response` call and the toast
notifications are external outputs without rooms-list state effect, so they
do not appear here. -/
def RoomsList.handle_one_update (st : RoomsList) (update : RoomsListUpdate) :
    RoomsList :=
  match update with
  | .addInvitedRoom invited_room =>
      let room_id := invited_room.room_id
      let should_display :=
        room_display_filter st.display_filter_keywords invited_room.room_name
      let replaced := assocGet st.invited_rooms room_id
      let st := { st with
        invited_rooms := assocInsert st.invited_rooms room_id invited_room }
      let st :=
        if replaced.isSome then
          st
        else if should_display then
          { st with displayed_invited_rooms :=
              st.displayed_invited_rooms ++ [room_id] }
        else st
      st.update_status_rooms_count
  | .addJoinedRoom joined_room =>
      let room_id := joined_room.room_id
      let should_display :=
        room_display_filter st.display_filter_keywords joined_room.room_name
      let is_direct := joined_room.is_direct
      let replaced := assocGet st.all_joined_rooms room_id
      let st := { st with
        all_joined_rooms := assocInsert st.all_joined_rooms room_id joined_room }
      let st :=
        if replaced.isSome then
          st
        else if should_display then
          if is_direct then
            { st with displayed_direct_rooms :=
                st.displayed_direct_rooms ++ [room_id] }
          else
            { st with displayed_regular_rooms :=
                st.displayed_regular_rooms ++ [room_id] }
        else st
      let st :=
        if (assocGet st.invited_rooms room_id).isSome then
          { st with
            invited_rooms := assocRemove st.invited_rooms room_id
            displayed_invited_rooms :=
              st.displayed_invited_rooms.erase room_id }
        else st
      st.update_status_rooms_count
  | .updateRoomAvatar room_id avatar =>
      if (assocGet st.all_joined_rooms room_id).isSome then
        { st with all_joined_rooms := (assocModify st.all_joined_rooms room_id
            fun room => { room with avatar := some avatar }) }
      else st
  | .updateLatestEvent room_id timestamp latest_message_text =>
      if (assocGet st.all_joined_rooms room_id).isSome then
        { st with all_joined_rooms := (assocModify st.all_joined_rooms room_id
            fun room => { room with latest := some (timestamp, latest_message_text) }) }
      else st
  | .updateNumUnreadMessages room_id unread_messages unread_mentions =>
      if (assocGet st.all_joined_rooms room_id).isSome then
        { st with all_joined_rooms := (assocModify st.all_joined_rooms room_id
            fun room =>
              match unread_messages with
              | .unknown =>
                  { room with num_unread_messages := 0, num_unread_mentions := 0 }
              | .known count =>
                  { room with num_unread_messages := count,
                              num_unread_mentions := unread_mentions }) }
      else st
  | .updateRoomName room_id new_room_name =>
      match assocGet st.all_joined_rooms room_id with
      | some room =>
          let was_displayed :=
            room_display_filter st.display_filter_keywords room.room_name
          let room2 := { room with room_name := some new_room_name }
          let should_display :=
            room_display_filter st.display_filter_keywords room2.room_name
          let st := { st with
            all_joined_rooms := assocInsert st.all_joined_rooms room_id room2 }
          (match was_displayed, should_display with
          | true, true => st
          | false, false => st
          | true, false =>
              if room2.is_direct then
                { st with displayed_direct_rooms :=
                    st.displayed_direct_rooms.erase room_id }
              else
                { st with displayed_regular_rooms :=
                    st.displayed_regular_rooms.erase room_id }
          | false, true =>
              if room2.is_direct then
                { st with displayed_direct_rooms :=
                    st.displayed_direct_rooms ++ [room_id] }
              else
                { st with displayed_regular_rooms :=
                    st.displayed_regular_rooms ++ [room_id] })
      | none =>
          match assocGet st.invited_rooms room_id with
          | some invited_room =>
              let was_displayed := room_display_filter
                st.display_filter_keywords invited_room.room_name
              let invited2 := { invited_room with room_name := some new_room_name }
              let should_display := room_display_filter
                st.display_filter_keywords invited2.room_name
              let st := { st with
                invited_rooms := assocInsert st.invited_rooms room_id invited2 }
              (match was_displayed, should_display with
              | true, true => st
              | false, false => st
              | true, false =>
                  { st with displayed_invited_rooms :=
                      st.displayed_invited_rooms.erase room_id }
              | false, true =>
                  { st with displayed_invited_rooms :=
                      st.displayed_invited_rooms ++ [room_id] })
          | none => st
  | .updateTopic room_id new_topic =>
      if (assocGet st.all_joined_rooms room_id).isSome then
        { st with all_joined_rooms := (assocModify st.all_joined_rooms room_id
            fun room => { room with topic := some new_topic }) }
      else st
  | .updateIsDirect room_id is_direct =>
      match assocGet st.all_joined_rooms room_id with
      | some room =>
          if room.is_direct = is_direct then
            st
          else
            let st :=
              if room_display_filter st.display_filter_keywords room.room_name then
                if room.is_direct then
                  { st with displayed_direct_rooms :=
                      st.displayed_direct_rooms.erase room_id }
                else
                  { st with displayed_regular_rooms :=
                      st.displayed_regular_rooms.erase room_id }
              else st
            let room2 := { room with is_direct := is_direct }
            let st := { st with
              all_joined_rooms := assocInsert st.all_joined_rooms room_id room2 }
            if room_display_filter st.display_filter_keywords room2.room_name then
              if is_direct then
                { st with displayed_direct_rooms :=
                    st.displayed_direct_rooms ++ [room_id] }
              else
                { st with displayed_regular_rooms :=
                    st.displayed_regular_rooms ++ [room_id] }
            else st
      | none => st
  | .removeRoom room_id _ =>
      let st :=
        match assocGet st.all_joined_rooms room_id with
        | some removed =>
            let st := { st with
              all_joined_rooms := assocRemove st.all_joined_rooms room_id }
            if removed.is_direct then
              { st with displayed_direct_rooms :=
                  st.displayed_direct_rooms.erase room_id }
            else
              { st with displayed_regular_rooms :=
                  st.displayed_regular_rooms.erase room_id }
        | none =>
            if (assocGet st.invited_rooms room_id).isSome then
              { st with
                invited_rooms := assocRemove st.invited_rooms room_id
                displayed_invited_rooms :=
                  st.displayed_invited_rooms.erase room_id }
            else st
      st.update_status_rooms_count
  | .clearRooms =>
      let st := { st with
        all_joined_rooms := []
        displayed_direct_rooms := []
        displayed_regular_rooms := []
        invited_rooms := []
        displayed_invited_rooms := [] }
      st.update_status_rooms_count
  | .notLoaded =>
      { st with status := .loading "Loading rooms (waiting for homeserver)..." }
  | .loadedRooms max_rooms =>
      let st := { st with max_known_rooms := max_rooms }
      st.update_status_rooms_count
  | .tagsUpdate room_id new_tags =>
      if (assocGet st.all_joined_rooms room_id).isSome then
        { st with all_joined_rooms := (assocModify st.all_joined_rooms room_id
            fun room => { room with tags := new_tags }) }
      else st
  | .statusUpdate status =>
      { st with status := status }
  | .tombstonedRoom room_id =>
      match assocGet st.all_joined_rooms room_id with
      | some room =>
          let was_displayed :=
            room_display_filter st.display_filter_keywords room.room_name
          let room2 := { room with is_tombstoned := true }
          let should_display :=
            room_display_filter st.display_filter_keywords room2.room_name
          let st := { st with
            all_joined_rooms := assocInsert st.all_joined_rooms room_id room2 }
          (match was_displayed, should_display with
          | true, true => st
          | false, false => st
          | true, false =>
              if room2.is_direct then
                { st with displayed_direct_rooms :=
                    st.displayed_direct_rooms.erase room_id }
              else
                { st with displayed_regular_rooms :=
                    st.displayed_regular_rooms.erase room_id }
          | false, true =>
              if room2.is_direct then
                { st with displayed_direct_rooms :=
                    st.displayed_direct_rooms ++ [room_id] }
              else
                { st with displayed_regular_rooms :=
                    st.displayed_regular_rooms ++ [room_id] })
      | none => st
  | .applyFilter keywords =>
      { st with filter_keywords := keywords }

/-- Translation of `RoomsList::handle_rooms_list_updates`
(`rooms_list.rs` lines 302-619): drain the whole queue, counting the
drained updates; when at least one update was applied, regenerate the
displayed lists and push one consolidated state snapshot to the frontend
(`update_frontend_state`).  The returned number counts the frontend
pushes. -/
def RoomsList.handle_rooms_list_updates (st : RoomsList)
    (pending : List RoomsListUpdate) : RoomsList × Nat :=
  let num_updates := pending.length
  let st2 := pending.foldl RoomsList.handle_one_update st
  if 0 < num_updates then
    (st2.update_displayed_rooms, 1)
  else
    (st2, 0)

/-! The per-room timeline drain loop (`src/src/room/room_screen.rs`). -/

/-- Current power levels of the local user, modelled as an opaque numeric
snapshot (`UserPowerLevels` is a bitflag set in the source). -/
abbrev UserPowerLevels := Nat

/-- Model of `UserPowerLevels::all()`: the all-capabilities snapshot assumed
for a freshly shown room. -/
def user_power_levels_all : UserPowerLevels := 18446744073709551615

/-- Model of `usize::MAX`, the initial `last_scrolled_index`. -/
def usize_max : Nat := 18446744073709551615

/-- A timeline item as far as the drain loop inspects it: virtual items have
no event id, event-backed items may have one
(`item.as_event().and_then(|ev| ev.event_id())`). -/
structure TimelineItemModel where
  event_id : Option Nat
deriving DecidableEq

/-- A room member as returned by the members-list fetch, with the accessors
used in the `RoomMembersListFetched` arm of `process_timeline_updates`. -/
structure RoomMemberModel where
  user_id : Nat
  name : String
  name_ambiguous : Bool
  is_ignored : Bool
  normalized_power_level : Int
deriving DecidableEq

/-- Frontend-facing member record (`FrontendRoomMember` in `room_screen.rs`,
lines 590-596). -/
structure FrontendRoomMember where
  name : String
  max_power_level : Int
  display_name_ambiguous : Bool
  is_ignored : Bool
deriving DecidableEq

/-- Pagination direction (`PaginationDirection`, defined in the
`src/src/events/timeline.rs` module which is not under `src/`; the two
variants are evident from its uses in `room_screen.rs`). -/
inductive PaginationDirection where
  | forwards
  | backwards
deriving DecidableEq

/-- The typed per-room timeline updates.  The defining module
`src/src/events/timeline.rs` is not under `src/`; the variants and their
payloads are reconstructed from the exhaustive `match` of
`RoomScreen::process_timeline_updates` (`room_screen.rs` lines 84-308).
The `changed_indices` range of `NewItems` is modelled by its two bounds. -/
inductive TimelineUpdate where
  | firstUpdate (initial_items : List TimelineItemModel)
  | newItems (new_items : List TimelineItemModel) (changed_start changed_stop : Nat)
      (clear_cache : Bool)
  | newUnreadMessagesCount (count : Nat)
  | targetEventFound (target_event_id : Nat) (index : Nat)
  | paginationRunning (direction : PaginationDirection)
  | paginationError (direction : PaginationDirection)
  | paginationIdle (fully_paginated : Bool) (direction : PaginationDirection)
  | eventDetailsFetched (event_id : Nat) (ok : Bool)
  | roomMembersSynced
  | roomMembersListFetched (members : List RoomMemberModel)
  | mediaFetched
  | messageEdited (timeline_event_id : Nat) (ok : Bool)
  | typingUsers (users : List String)
  | userPowerLevels (power : UserPowerLevels)
  | ownUserReadReceipt (receipt : Nat)
deriving DecidableEq

/-- The persistent per-room UI state (`TimelineUiState`, defined in the
`src/src/events/timeline.rs` module which is not under `src/`; the fields
are reconstructed from the construction site in `RoomScreen::show_timeline`,
`room_screen.rs` lines 385-402, and the field uses in the drain loop).  The
two drawn-range caches are modelled as the lists of drawn indices.  The
update-receiver and request-sender channel endpoints are not data and are
modelled by passing the pending update list to the drain loop directly. -/
structure TimelineUiState where
  room_id : Nat
  user_power : UserPowerLevels
  fully_paginated : Bool
  items : List TimelineItemModel
  content_drawn_since_last_update : List Nat
  profile_drawn_since_last_update : List Nat
  last_scrolled_index : Nat
  prev_first_index : Option Nat
  scrolled_past_read_marker : Bool
  latest_own_user_receipt : Option Nat
deriving DecidableEq

/-- The async requests submitted by the room screen
(`MatrixRequest` variants from `src/src/models/async_requests.rs` used in
`room_screen.rs`). -/
inductive MatrixRequest where
  | paginateRoomTimeline (room_id : Nat) (num_events : Nat)
      (direction : PaginationDirection)
  | getRoomPowerLevels (room_id : Nat)
  | subscribeToTypingNotices (room_id : Nat) (subscribe : Bool)
  | subscribeToOwnUserReadReceiptsChanged (room_id : Nat) (subscribe : Bool)
  | syncRoomMemberList (room_id : Nat)
deriving DecidableEq

/-- The room-screen widget state (`RoomScreen` in `room_screen.rs`, lines
24-36, without the injected state-updater handle). -/
structure RoomScreen where
  room_id : Nat
  room_name : String
  tl_state : Option TimelineUiState
  members : List (Nat × FrontendRoomMember)
deriving DecidableEq

/-- The `while let Some(curr_item) = curr_item_focus.get(idx_curr)` loop of
`find_new_item_matching_current_item` (`room_screen.rs` lines 554-564):
walk the current items from the starting index, record each item that has a
real event id, and stop as soon as `visible_items` many are recorded (with
`visible_items = 0` the loop records at most the first inspected item). -/
def collect_visible_item_ids (visible_items : Nat) :
    List TimelineItemModel → Nat → List (Nat × Nat) → List (Nat × Nat)
  | [], _, acc => acc
  | item :: rest, idx_curr, acc =>
      let acc2 :=
        match item.event_id with
        | some event_id => acc ++ [(idx_curr, event_id)]
        | none => acc
      if visible_items ≤ acc2.length then acc2
      else collect_visible_item_ids visible_items rest (idx_curr + 1) acc2

/-- The `for (idx_new, new_item) in new_items.iter().enumerate()` loop of
`find_new_item_matching_current_item` (`room_screen.rs` lines 567-585):
find the first new item whose event id matches a recorded current item, and
return a result only when a position offset is available. -/
def scan_new_items (curr_items_with_ids : List (Nat × Nat))
    (position_of_item : Option Int) :
    List TimelineItemModel → Nat → Option (Nat × Nat × Int × Nat)
  | [], _ => none
  | item :: rest, idx_new =>
      match item.event_id with
      | none => scan_new_items curr_items_with_ids position_of_item rest (idx_new + 1)
      | some event_id =>
          match curr_items_with_ids.find? fun p => p.2 == event_id with
          | some p =>
              match position_of_item with
              | some pos_offset => some (p.1, idx_new, pos_offset, event_id)
              | none =>
                  scan_new_items curr_items_with_ids position_of_item rest (idx_new + 1)
          | none =>
              scan_new_items curr_items_with_ids position_of_item rest (idx_new + 1)

/-- Translation of `find_new_item_matching_current_item`
(`room_screen.rs` lines 541-588).  The `f64` scroll offset is carried
through unmodified, so it is modelled as an `Int`.  The guard
`curr_items_with_ids.len() <= visible_items` around the collection loop is
always true for the freshly created empty vector and is therefore not
represented. -/
def find_new_item_matching_current_item (visible_items : Nat)
    (position_of_item : Option Int) (starting_at_curr_idx : Nat)
    (curr_items new_items : List TimelineItemModel) :
    Option (Nat × Nat × Int × Nat) :=
  let curr_items_with_ids := collect_visible_item_ids visible_items
    (curr_items.drop starting_at_curr_idx) starting_at_curr_idx []
  scan_new_items curr_items_with_ids position_of_item new_items 0

/-- Removal of a changed-index range from a drawn-indices cache
(`RangeSet::remove(changed_indices)`). -/
def remove_drawn_range (drawn : List Nat) (changed_start changed_stop : Nat) :
    List Nat :=
  drawn.filter fun i => !(decide (changed_start ≤ i) && decide (i < changed_stop))

/-- Loop-local state of the `while let Ok(update)` drain loop of
`RoomScreen::process_timeline_updates` (`room_screen.rs` lines 80-84):
the timeline state, the widget member map, and the `done_loading`,
`should_continue_backwards_pagination` and `typing_users` locals. -/
structure DrainState where
  tl : TimelineUiState
  members : List (Nat × FrontendRoomMember)
  done_loading : Bool
  should_continue_backwards_pagination : Bool
  typing_users : List String

/-- Translation of one iteration of the drain loop of
`RoomScreen::process_timeline_updates` (`room_screen.rs` lines 84-308).
The `curr_first_id` local is the constant `0` in the source (line 74). -/
def apply_timeline_update (s : DrainState) : TimelineUpdate → DrainState
  | .firstUpdate initial_items =>
      { s with
        tl := { s.tl with
          content_drawn_since_last_update := []
          profile_drawn_since_last_update := []
          fully_paginated := false
          items := initial_items }
        done_loading := true }
  | .newItems new_items changed_start changed_stop clear_cache =>
      let curr_first_id := 0
      let continue_pagination :=
        if new_items.isEmpty then
          if !s.tl.items.isEmpty then true
          else s.should_continue_backwards_pagination
        else s.should_continue_backwards_pagination
      let tl1 :=
        if new_items.length = s.tl.items.length then s.tl
        else if curr_first_id > new_items.length then s.tl
        else
          match find_new_item_matching_current_item 0 (some 0) curr_first_id
              s.tl.items new_items with
          | some (curr_item_idx, new_item_idx, _, _) =>
              if curr_item_idx ≠ new_item_idx then
                { s.tl with
                  prev_first_index := some new_item_idx
                  scrolled_past_read_marker := false }
              else s.tl
          | none => s.tl
      let tl2 :=
        if clear_cache then
          { tl1 with
            content_drawn_since_last_update := []
            profile_drawn_since_last_update := []
            fully_paginated := false }
        else
          { tl1 with
            content_drawn_since_last_update := remove_drawn_range
              tl1.content_drawn_since_last_update changed_start changed_stop
            profile_drawn_since_last_update := remove_drawn_range
              tl1.profile_drawn_since_last_update changed_start changed_stop }
      { s with
        tl := { tl2 with items := new_items }
        done_loading := true
        should_continue_backwards_pagination := continue_pagination }
  | .newUnreadMessagesCount _ => s
  | .targetEventFound _ _ =>
      { s with should_continue_backwards_pagination := false }
  | .paginationRunning direction =>
      if direction = .backwards then { s with done_loading := false } else s
  | .paginationError _ =>
      { s with done_loading := true }
  | .paginationIdle fully_paginated direction =>
      if direction = .backwards then
        if fully_paginated then
          { s with tl := { s.tl with fully_paginated := fully_paginated }
                   done_loading := true }
        else
          { s with tl := { s.tl with fully_paginated := fully_paginated } }
      else s
  | .eventDetailsFetched _ _ => s
  | .roomMembersSynced => s
  | .roomMembersListFetched members =>
      { s with members := members.foldl (fun acc member =>
          assocInsert acc member.user_id
            { name := member.name
              display_name_ambiguous := member.name_ambiguous
              is_ignored := member.is_ignored
              max_power_level := member.normalized_power_level }) s.members }
  | .mediaFetched => s
  | .messageEdited _ _ => s
  | .typingUsers users => { s with typing_users := users }
  | .userPowerLevels power =>
      { s with tl := { s.tl with user_power := power } }
  | .ownUserReadReceipt receipt =>
      { s with tl := { s.tl with latest_own_user_receipt := some receipt } }

/-- Translation of `RoomScreen::process_timeline_updates`
(`room_screen.rs` lines 73-360): with no timeline state the call returns
immediately; otherwise the whole pending queue is drained, a follow-up
backward pagination with `num_events = 50` is submitted when the
continue-pagination flag survived the drain, and exactly one consolidated
frontend push (`update_frontend_state`) is made when at least one update
was applied.  Returned: the widget state, the submitted requests in order,
and the number of frontend pushes. -/
def RoomScreen.process_timeline_updates (screen : RoomScreen)
    (pending : List TimelineUpdate) :
    RoomScreen × List MatrixRequest × Nat :=
  match screen.tl_state with
  | none => (screen, [], 0)
  | some tl =>
      let final := pending.foldl apply_timeline_update
        { tl := tl
          members := screen.members
          done_loading := false
          should_continue_backwards_pagination := false
          typing_users := [] }
      let requests :=
        if final.should_continue_backwards_pagination then
          [MatrixRequest.paginateRoomTimeline final.tl.room_id 50 .backwards]
        else []
      let pushes := if 0 < pending.length then 1 else 0
      ({ screen with tl_state := some final.tl, members := final.members },
       requests, pushes)

/-- The fresh `TimelineUiState` constructed in `RoomScreen::show_timeline`
when no saved state exists (`room_screen.rs` lines 385-402). -/
def fresh_timeline_ui_state (room_id : Nat) : TimelineUiState :=
  { room_id := room_id
    user_power := user_power_levels_all
    fully_paginated := false
    items := []
    content_drawn_since_last_update := []
    profile_drawn_since_last_update := []
    last_scrolled_index := usize_max
    prev_first_index := none
    scrolled_past_read_marker := false
    latest_own_user_receipt := none }

/-- Shared tail of `RoomScreen::show_timeline` after the timeline state and
the `first_time_showing_room` flag are determined (`room_screen.rs` lines
406-450): submit the two subscription requests, the first-time bootstrap
pagination, and the member-list sync; store the state; drain pending
updates when showing for the first time; push one frontend snapshot. -/
def show_timeline_rest (screen : RoomScreen) (tl_state : TimelineUiState)
    (first_time_showing_room : Bool) (pending : List TimelineUpdate) :
    RoomScreen × List MatrixRequest × Nat :=
  let room_id := screen.room_id
  let early_requests :=
    [MatrixRequest.getRoomPowerLevels room_id,
     MatrixRequest.subscribeToTypingNotices room_id true,
     MatrixRequest.subscribeToOwnUserReadReceiptsChanged room_id true]
  let pagination_requests :=
    if first_time_showing_room ∧ ¬ tl_state.fully_paginated then
      [MatrixRequest.paginateRoomTimeline room_id 50 .backwards]
    else []
  let member_requests := [MatrixRequest.syncRoomMemberList room_id]
  let screen2 := { screen with tl_state := some tl_state }
  let drained :=
    if first_time_showing_room then
      screen2.process_timeline_updates pending
    else
      (screen2, [], 0)
  (drained.1,
   early_requests ++ pagination_requests ++ member_requests ++ drained.2.1,
   drained.2.2 + 1)

/-- Translation of `RoomScreen::show_timeline` (`room_screen.rs` lines
364-450).  Inputs: the saved `TimelineUiState` for this room id in the
global `TIMELINE_STATES` map (if any), whether the one-shot timeline
endpoints are still available from `take_timeline_endpoints`, and the
pending updates of the update channel.  The `assert!` on an already-present
`tl_state` and the `expect` on missing endpoints are panics, modelled as
`none`.  Note that the power-levels request is submitted first, before the
saved state is even looked up (line 374). -/
def RoomScreen.show_timeline (screen : RoomScreen)
    (saved_state : Option TimelineUiState) (endpoints_available : Bool)
    (pending : List TimelineUpdate) :
    Option (RoomScreen × List MatrixRequest × Nat) :=
  if screen.tl_state.isSome then
    none
  else
    match saved_state with
    | some existing => some (show_timeline_rest screen existing false pending)
    | none =>
        if endpoints_available then
          some (show_timeline_rest screen
            (fresh_timeline_ui_state screen.room_id) true pending)
        else
          none

/-! Fixtures and observers used by the theorems below. -/

/-- A concrete room snapshot used as a test fixture: a plain non-direct room
with the given id and lifecycle state, no optional data, and a working
timeline builder. -/
def sampleRoom (room_id : Nat) (state : RoomState) : Room :=
  { room_id := room_id
    state := state
    is_direct := false
    is_tombstoned := false
    tags := none
    topic := none
    user_power_levels := none
    num_unread_messages := 0
    num_unread_mentions := 0
    display_name := some "room"
    room_avatar := none
    heroes := []
    canonical_alias := none
    alt_aliases := []
    direct_targets := []
    inviter := none
    latest := none
    timeline_build_ok := true }

/-- Number of `AddJoinedRoom` plus `AddInvitedRoom` events for a room id. -/
def add_event_count (room_id : Nat) (events : List RoomsListUpdate) : Nat :=
  events.countP fun u =>
    match u with
    | .addJoinedRoom info => info.room_id == room_id
    | .addInvitedRoom info => info.room_id == room_id
    | _ => false

/-- Number of `RemoveRoom` events for a room id. -/
def remove_event_count (room_id : Nat) (events : List RoomsListUpdate) : Nat :=
  events.countP fun u =>
    match u with
    | .removeRoom id _ => id == room_id
    | _ => false

/-- Cumulative lifecycle-event balance of a room id over an event list:
add events minus remove events. -/
def lifecycle_balance (room_id : Nat) (events : List RoomsListUpdate) : Int :=
  (add_event_count room_id events : Int) - (remove_event_count room_id events : Int)

/-- The keys of an association-list map are pairwise distinct (the intrinsic
uniqueness discipline of a `HashMap`). -/
def keys_nodup {β : Type} (l : List (Nat × β)) : Prop :=
  (l.map Prod.fst).Nodup

/-- Translation of `RoomsList::new` (`rooms_list.rs` lines 274-289): empty
maps and display lists, the default (all-accepting) filter, and the
initial `NotLoaded` status. -/
def rooms_list_new : RoomsList :=
  { invited_rooms := []
    all_joined_rooms := []
    display_filter_keywords := ""
    filter_keywords := ""
    displayed_invited_rooms := []
    displayed_direct_rooms := []
    displayed_regular_rooms := []
    status := .notLoaded "Initiating"
    max_known_rooms := none }

/-- Fixture for the remove-then-insert optimization: the previous snapshot
of room 2, in the Joined state. -/
def c1OldRoom : Room := sampleRoom 2 .joined

/-- Fixture: a newer snapshot of room 2, still Joined, with a new avatar. -/
def c1NewRoom : Room := { sampleRoom 2 .joined with room_avatar := some 5 }

/-- The effect trace of `update_room c1OldRoom c1NewRoom []`. -/
def c1Trace : List Effect :=
  [.enqueueRoomsListUpdate (.updateRoomAvatar 2 5)]

/-- The `JoinedRoomInfo` built by `add_new_room` for `sampleRoom 1 .joined`. -/
def c6JoinedInfo : JoinedRoomInfo :=
  { room_id := 1
    room_name := some "room"
    num_unread_messages := 0
    num_unread_mentions := 0
    canonical_alias := none
    alt_aliases := []
    tags := []
    topic := none
    latest := none
    avatar := none
    has_been_paginated := false
    is_selected := false
    is_direct := false
    direct_user_id := none
    is_tombstoned := false
    heroes := [] }

/-- The effect trace of `add_new_room (sampleRoom 1 .joined)`. -/
def c6Trace : List Effect :=
  [.subscribeToRoom 1, .insertRoomDetails 1,
   .enqueueRoomsListUpdate (.addJoinedRoom c6JoinedInfo)]

/-- Fixture: a Joined room whose live-timeline build fails. -/
def c7FailRoom : Room := { sampleRoom 8 .joined with timeline_build_ok := false }

/-- Fixture for the granular-update diff: the previous snapshot of room 4,
Joined, with an avatar and a display name. -/
def c10OldRoom : Room :=
  { sampleRoom 4 .joined with room_avatar := some 3, display_name := some "old name" }

/-- Fixture: a newer snapshot of room 4, still Joined, whose avatar changed
to a new present value and whose display name went absent. -/
def c10NewRoom : Room :=
  { sampleRoom 4 .joined with room_avatar := some 9, display_name := none }

/-- The effect trace of `update_room c10OldRoom c10NewRoom []`. -/
def c10Trace : List Effect :=
  [.enqueueRoomsListUpdate (.updateRoomAvatar 4 9)]

/-- Fixture: a room screen currently showing room 11. -/
def c9Screen : RoomScreen :=
  { room_id := 11
    room_name := "room eleven"
    tl_state := some (fresh_timeline_ui_state 11)
    members := [] }

/-- The rooms-list update kinds that the same-state path of `update_room`
can emit (avatar, name, topic for every room kind; latest event, tags,
unread counts, direct-ness, tombstone for Joined rooms). -/
def same_state_event (u : RoomsListUpdate) : Prop :=
  match u with
  | .updateRoomAvatar _ _ => True
  | .updateRoomName _ _ => True
  | .updateTopic _ _ => True
  | .updateLatestEvent _ _ _ => True
  | .tagsUpdate _ _ => True
  | .updateNumUnreadMessages _ _ _ => True
  | .updateIsDirect _ _ => True
  | .tombstonedRoom _ => True
  | _ => False

/-- The rooms-list update kinds that the Joined-only diff block of
`update_room` can emit. -/
def joined_diff_event (u : RoomsListUpdate) : Prop :=
  match u with
  | .updateLatestEvent _ _ _ => True
  | .tagsUpdate _ _ => True
  | .updateNumUnreadMessages _ _ _ => True
  | .updateIsDirect _ _ => True
  | .tombstonedRoom _ => True
  | _ => False

/-! Helper lemmas shared by the claim theorems. -/

theorem mem_insertDetailsKey (joined : JoinedStore) (room_id : Nat) :
    room_id ∈ insertDetailsKey joined room_id := by
  unfold insertDetailsKey
  split
  · next h => exact List.elem_iff.mp h
  · exact List.mem_append_right _ (List.mem_singleton.mpr rfl)

/-! Claim C3. -/

/-- C3: out-of-bounds `Set` and `Remove` diffs.  The claim states that both
are logged and abandoned, leaving the mirror unchanged and continuing
without panicking.  The `Remove` arm behaves exactly so (second conjunct:
the out-of-bounds `Remove 3` is skipped and the following `PushBack` is
still processed), but the `Set` arm logs the bug and then still executes
the unguarded `all_known_rooms.set(index, ..)`, which panics on an
out-of-bounds index (first conjunct evaluates the embedding of that code
path at `Set 0` against an empty mirror). -/
theorem c3_set_out_of_bounds_panics :
    sync_batch [VectorDiff.set 0 (sampleRoom 9 .joined)] [] [] =
      .error (.panicOutOfBounds 0) ∧
    sync_batch [VectorDiff.remove 3,
        VectorDiff.pushBack (sampleRoom 4 .invited)] [sampleRoom 1 .joined] [1] =
      .ok ([sampleRoom 1 .joined, sampleRoom 4 .invited], [1],
        [.enqueueRoomsListUpdate (.addInvitedRoom
          { room_id := 4
            room_name := some "room"
            inviter_info := none
            room_avatar := none
            canonical_alias := none
            alt_aliases := []
            latest := none
            is_direct := false })]) :=
  ⟨rfl, rfl⟩

/-! Claim C5. -/

/-- C5: an `update_room` call on two same-id snapshots whose lifecycle state
changed routes to `add_new_room` when the new state is Joined or Invited,
to the remove path when it is Banned or Left, and is a no-op (no effects at
all, hence no events and no store mutation) when it is Knocked. -/
theorem c5_update_room_routes_on_state_change (old_room new_room : Room)
    (joined : JoinedStore) (hid : old_room.room_id = new_room.room_id)
    (hst : old_room.state ≠ new_room.state) :
    ((new_room.state = .joined ∨ new_room.state = .invited) →
      update_room old_room new_room joined = add_new_room new_room) ∧
    ((new_room.state = .banned ∨ new_room.state = .left) →
      update_room old_room new_room joined = .ok (remove_room new_room)) ∧
    (new_room.state = .knocked →
      update_room old_room new_room joined = .ok []) := by
  have hroute : update_room old_room new_room joined =
      (match new_room.state with
       | .banned => .ok (remove_room new_room)
       | .left => .ok (remove_room new_room)
       | .joined => add_new_room new_room
       | .invited => add_new_room new_room
       | .knocked => .ok []) := by
    unfold update_room
    rw [if_pos hid, if_pos hst]
  refine ⟨?_, ?_, ?_⟩
  · rintro (h | h) <;> rw [hroute, h]
  · rintro (h | h) <;> rw [hroute, h]
  · intro h
    rw [hroute, h]

/-- Witness for C5 at a concrete input: accepting an invite transitions
room 1 from Invited to Joined, and the update routes to `add_new_room`. -/
theorem c5_witness :
    update_room (sampleRoom 1 .invited) (sampleRoom 1 .joined) [] =
      add_new_room (sampleRoom 1 .joined) :=
  (c5_update_room_routes_on_state_change (sampleRoom 1 .invited)
    (sampleRoom 1 .joined) [] rfl (by decide)).1 (Or.inl rfl)

/-! Claim C6. -/

/-- C6: in the effect trace of an `add_new_room` call on a Joined room, the
session entry is inserted into the keyed `ALL_JOINED_ROOMS` store strictly
before the `AddJoinedRoom` update is enqueued, and at the point the
`AddJoinedRoom` event is enqueued the room id is already present in the
store resulting from the preceding effects. -/
theorem c6_details_inserted_before_add_event (new_room : Room)
    (trace : List Effect) (joined : JoinedStore) (k : Nat)
    (info : JoinedRoomInfo) (hst : new_room.state = .joined)
    (hok : add_new_room new_room = .ok trace)
    (hk : trace.get? k = some (.enqueueRoomsListUpdate (.addJoinedRoom info))) :
    (∃ j, j < k ∧ trace.get? j = some (.insertRoomDetails new_room.room_id)) ∧
    new_room.room_id ∈ applyEffects joined (trace.take k) := by
  by_cases hb : new_room.timeline_build_ok
  · simp [add_new_room, hst, hb] at hok
    subst hok
    match k with
    | 0 => simp at hk
    | 1 => simp at hk
    | 2 =>
        exact ⟨⟨1, by omega, rfl⟩, mem_insertDetailsKey joined new_room.room_id⟩
    | n + 3 => simp at hk
  · simp [add_new_room, hst, hb] at hok

/-- Witness for C6 at a concrete input: adding the Joined room 1 with an
empty session store. -/
theorem c6_witness :
    (∃ j, j < 2 ∧ c6Trace.get? j = some (.insertRoomDetails 1)) ∧
    1 ∈ applyEffects [] (c6Trace.take 2) :=
  c6_details_inserted_before_add_event (sampleRoom 1 .joined) c6Trace [] 2
    c6JoinedInfo rfl rfl rfl

/-! Claim C7. -/

theorem sync_batches_error_of_batch_error (batches_before : List (List VectorDiff)) :
    ∀ (mirror0 : List Room) (joined0 : JoinedStore) (mirror : List Room)
      (joined : JoinedStore) (trace : List Effect) (batch : List VectorDiff)
      (batches_after : List (List VectorDiff)) (e : SyncError),
      sync_batches batches_before mirror0 joined0 = .ok (mirror, joined, trace) →
      sync_batch batch mirror joined = .error e →
      sync_batches (batches_before ++ batch :: batches_after) mirror0 joined0 =
        .error e := by
  induction batches_before with
  | nil =>
      intro mirror0 joined0 mirror joined trace batch batches_after e hok herr
      simp only [sync_batches] at hok
      cases hok
      simp [sync_batches, herr]
  | cons b bs ih =>
      intro mirror0 joined0 mirror joined trace batch batches_after e hok herr
      rw [List.cons_append]
      simp only [sync_batches] at hok ⊢
      cases hb : sync_batch b mirror0 joined0 with
      | error e2 => simp [hb] at hok
      | ok result =>
          obtain ⟨m1, j1, t1⟩ := result
          simp only [hb] at hok ⊢
          cases hbs : sync_batches bs m1 j1 with
          | error e2 => simp [hbs] at hok
          | ok result2 =>
              obtain ⟨m2, j2, t2⟩ := result2
              simp only [hbs, Except.ok.injEq, Prod.mk.injEq] at hok
              obtain ⟨h1, h2, h3⟩ := hok
              subst h1
              subst h2
              rw [ih m1 j1 m2 j2 t2 batch batches_after e hbs herr]

/-- C7: a failed live-timeline build during the add of a Joined room is a
hard error for that `add_new_room` call (first conjunct: the call returns
the error, it does not degrade to a default), and any batch whose
processing errors aborts the whole reconciliation loop: once an erroring
batch is reached, the final outcome is that error no matter what later
batches follow, so no later diff is ever applied (second conjunct). -/
theorem c7_timeline_build_failure_is_fatal :
    (∀ new_room : Room, new_room.state = .joined →
      new_room.timeline_build_ok = false →
      add_new_room new_room = .error (.timelineBuildFailed new_room.room_id)) ∧
    (∀ (batches_before : List (List VectorDiff)) (mirror : List Room)
       (joined : JoinedStore) (trace : List Effect) (batch : List VectorDiff)
       (batches_after : List (List VectorDiff)) (e : SyncError),
      sync_batches batches_before [] [] = .ok (mirror, joined, trace) →
      sync_batch batch mirror joined = .error e →
      sync_batches (batches_before ++ batch :: batches_after) [] [] = .error e) := by
  constructor
  · intro new_room hst hb
    simp [add_new_room, hst, hb]
  · intro batches_before mirror joined trace batch batches_after e hok herr
    exact sync_batches_error_of_batch_error batches_before [] [] mirror joined
      trace batch batches_after e hok herr

/-- Witness for C7 at a concrete input: the very first batch pushes a Joined
room whose timeline build fails; the loop ends with that error and the
following `Clear` batch is never applied. -/
theorem c7_witness :
    add_new_room c7FailRoom = .error (.timelineBuildFailed 8) ∧
    sync_batches ([] ++ [VectorDiff.pushBack c7FailRoom] :: [[VectorDiff.clear]])
        [] [] = .error (.timelineBuildFailed 8) :=
  ⟨c7_timeline_build_failure_is_fatal.1 c7FailRoom rfl rfl,
   c7_timeline_build_failure_is_fatal.2 [] [] [] [] [VectorDiff.pushBack c7FailRoom]
     [[VectorDiff.clear]] (.timelineBuildFailed 8) rfl rfl⟩

/-! Claim C1. -/

/-- Counterexample for C1 as stated: a `Remove(0)` immediately followed by an
`Insert(0)` of the *same* room id (room 1) is matched by the optimization
and consumed as a pair (the final mirror holds the inserted snapshot, both
operations are gone), yet a `RemoveRoom` event *is* emitted for that room:
the single `update_room` call sees the lifecycle transition Joined to Left
and routes to `remove_room`.  The claim asserts the reconciler `emits no
remove for that room` in this situation, which is therefore false. -/
theorem c1_counterexample :
    sync_batch [VectorDiff.remove 0, VectorDiff.insert 0 (sampleRoom 1 .left)]
        [sampleRoom 1 .joined] [1] =
      .ok ([sampleRoom 1 .left], [],
        [.removeRoomDetails 1, .enqueueRoomsListUpdate (.removeRoom 1 .left)]) ∧
    remove_event_count 1 (eventsOf
      [.removeRoomDetails 1, .enqueueRoomsListUpdate (.removeRoom 1 .left)]) = 1 :=
  ⟨rfl, rfl⟩

/-- C1 as amended: when a `Remove`, `PopFront` or `PopBack` is immediately
followed by an `Insert`/`PushFront`/`PushBack` carrying the same room id,
the pair is consumed as a single `update_room` call (whose own routing may
still emit a remove when the new snapshot transitioned to Banned or Left),
and in every other case the removed room undergoes a plain `remove_room`.
First conjunct: the `Remove`-then-`Insert` pair at the batch level — both
operations are consumed and the remaining effects are exactly one
`update_room` trace followed by the rest of the batch.  Second conjunct:
the `PushFront`/`PushBack` lookahead arms behave the same way.  Third
conjunct: when the next operation is absent, not an add, or carries a
different room id, the optimization performs the plain remove and consumes
nothing. -/
theorem c1_pair_becomes_single_update :
    (∀ (remove_index insert_index : Nat) (rest : List VectorDiff)
       (mirror mirror2 : List Room) (joined : JoinedStore)
       (room new_room : Room) (trace : List Effect),
      mirror.get? remove_index = some room →
      room.room_id = new_room.room_id →
      update_room room new_room joined = .ok trace →
      vectorInsert (mirror.eraseIdx remove_index) insert_index new_room =
        some mirror2 →
      sync_batch (VectorDiff.remove remove_index ::
          VectorDiff.insert insert_index new_room :: rest) mirror joined =
        (match sync_batch rest mirror2 (applyEffects joined trace) with
         | .error e => .error e
         | .ok (m, j, t) => .ok (m, j, trace ++ t))) ∧
    (∀ (room new_room : Room) (mirror : List Room) (joined : JoinedStore)
       (trace : List Effect),
      room.room_id = new_room.room_id →
      update_room room new_room joined = .ok trace →
      optimize_remove_then_add_into_update room (some (.pushFront new_room))
          mirror joined = .ok (trace, new_room :: mirror, true) ∧
      optimize_remove_then_add_into_update room (some (.pushBack new_room))
          mirror joined = .ok (trace, mirror ++ [new_room], true)) ∧
    (∀ (room : Room) (next_diff : Option VectorDiff) (mirror : List Room)
       (joined : JoinedStore),
      (∀ insert_index new_room,
        next_diff = some (.insert insert_index new_room) →
        room.room_id ≠ new_room.room_id) →
      (∀ new_room, next_diff = some (.pushFront new_room) →
        room.room_id ≠ new_room.room_id) →
      (∀ new_room, next_diff = some (.pushBack new_room) →
        room.room_id ≠ new_room.room_id) →
      optimize_remove_then_add_into_update room next_diff mirror joined =
        .ok (remove_room room, mirror, false)) := by
  refine ⟨?_, ?_, ?_⟩
  · intro remove_index insert_index rest mirror mirror2 joined room new_room
      trace hget hid hupd hins
    simp only [sync_batch, hget, List.head?_cons,
      optimize_remove_then_add_into_update, hid, hupd, hins, if_true,
      eq_self_iff_true, ite_true]
  · intro room new_room mirror joined trace hid hupd
    constructor <;>
      simp [optimize_remove_then_add_into_update, hid, hupd]
  · intro room next_diff mirror joined h1 h2 h3
    match next_diff with
    | none => rfl
    | some (.append v) => rfl
    | some .clear => rfl
    | some (.pushFront nr) =>
        simp [optimize_remove_then_add_into_update, h2 nr rfl]
    | some (.pushBack nr) =>
        simp [optimize_remove_then_add_into_update, h3 nr rfl]
    | some .popFront => rfl
    | some .popBack => rfl
    | some (.insert i nr) =>
        simp [optimize_remove_then_add_into_update, h1 i nr rfl]
    | some (.set i v) => rfl
    | some (.remove i) => rfl
    | some (.truncate n) => rfl
    | some (.reset v) => rfl

/-- Witness for the amended C1 at a concrete input: a server-side reorder of
room 2 (remove then re-insert of a newer Joined snapshot with a changed
avatar) turns into a single update. -/
theorem c1_witness :
    sync_batch [VectorDiff.remove 0, VectorDiff.insert 0 c1NewRoom]
        [c1OldRoom] [] =
      (match sync_batch [] [c1NewRoom] (applyEffects [] c1Trace) with
       | .error e => .error e
       | .ok (m, j, t) => .ok (m, j, c1Trace ++ t)) :=
  c1_pair_becomes_single_update.1 0 0 [] [c1OldRoom] [c1NewRoom] []
    c1OldRoom c1NewRoom c1Trace rfl rfl rfl rfl

/-! Claim C2. -/

/-- Counterexample for C2 as stated: a `Clear` diff against a mirror holding
the Joined room 2 removes that room from the mirror, but does *not* route
it through `remove_room`: the session store is cleared in bulk
(`clear_all_rooms`) and a single `ClearRooms` update is enqueued, with zero
`RemoveRoom` events for room 2.  The claim asserts that for `Clear` each
removed room individually triggers the remove operation emitting a
`RemoveRoom` event. -/
theorem c2_counterexample :
    sync_batch [VectorDiff.clear] [sampleRoom 2 .joined] [2] =
      .ok ([], [], [Effect.clearAllRooms,
        .enqueueRoomsListUpdate .clearRooms]) ∧
    remove_event_count 2 (eventsOf [Effect.clearAllRooms,
      .enqueueRoomsListUpdate .clearRooms]) = 0 :=
  ⟨rfl, rfl⟩

theorem pop_back_rooms_fuel_spec (fuel : Nat) :
    ∀ (mirror : List Room) (length : Nat), mirror.length ≤ fuel →
      pop_back_rooms_fuel fuel mirror length =
        (mirror.take length,
         ((mirror.drop length).reverse).flatMap remove_room) := by
  induction fuel with
  | zero =>
      intro mirror length h
      have hnil : mirror = [] := List.eq_nil_of_length_eq_zero (Nat.le_zero.mp h)
      subst hnil
      simp [pop_back_rooms_fuel]
  | succ fuel ih =>
      intro mirror length h
      by_cases hlt : length < mirror.length
      · have hne : mirror ≠ [] := by
          intro hnil
          subst hnil
          simp at hlt
        obtain ⟨l, a, hsplit⟩ : ∃ l a, mirror = l ++ [a] :=
          ⟨mirror.dropLast, mirror.getLast hne,
            (List.dropLast_concat_getLast hne).symm⟩
        subst hsplit
        have hlen : length ≤ l.length := by
          simp only [List.length_append, List.length_singleton] at hlt
          omega
        have hfuel : l.length ≤ fuel := by
          simp only [List.length_append, List.length_singleton] at h
          omega
        simp only [pop_back_rooms_fuel, if_pos hlt, List.getLast?_concat,
          List.dropLast_concat, ih l length hfuel,
          List.take_append_of_le_length hlen,
          List.drop_append_of_le_length hlen, List.reverse_append,
          List.reverse_cons, List.reverse_nil, List.nil_append,
          List.singleton_append, List.flatMap_cons]
      · have hge : mirror.length ≤ length := Nat.le_of_not_lt hlt
        simp [pop_back_rooms_fuel, hlt, List.take_of_length_le hge,
          List.drop_eq_nil_of_le hge]

theorem pop_back_rooms_down_to_spec (mirror : List Room) (length : Nat) :
    pop_back_rooms_down_to mirror length =
      (mirror.take length,
       ((mirror.drop length).reverse).flatMap remove_room) :=
  pop_back_rooms_fuel_spec mirror.length mirror length (Nat.le_refl _)

/-- C2 as amended: `Truncate(len)` routes every dropped room (beyond the
retained prefix of length `len`, popped from the back) through
`remove_room` individually, so each emits its own `RemoveRoom` event and
session teardown; `Reset(values)` does the same for the entire old mirror
and then re-adds the new values via `add_new_room`; `Clear` however is a
bulk operation: it clears the mirror and the whole session store at once
and emits a single `ClearRooms` update, with no per-room `RemoveRoom`
events. -/
theorem c2_per_room_removal_on_truncate_and_reset :
    (∀ (mirror : List Room) (joined : JoinedStore) (length : Nat),
      sync_batch [VectorDiff.truncate length] mirror joined =
        .ok (mirror.take length,
          applyEffects joined
            (((mirror.drop length).reverse).flatMap remove_room),
          ((mirror.drop length).reverse).flatMap remove_room)) ∧
    (∀ (mirror : List Room) (joined : JoinedStore),
      sync_batch [VectorDiff.clear] mirror joined =
        .ok ([], [], [Effect.clearAllRooms,
          .enqueueRoomsListUpdate .clearRooms])) ∧
    (∀ (mirror : List Room) (joined : JoinedStore) (values mirror2 : List Room)
       (add_trace : List Effect),
      add_rooms_sequentially values [] = .ok (mirror2, add_trace) →
      sync_batch [VectorDiff.reset values] mirror joined =
        .ok (mirror2, applyEffects [] add_trace,
          (mirror.reverse.flatMap remove_room) ++
            [Effect.clearAllRooms, .enqueueRoomsListUpdate .clearRooms] ++
            add_trace)) := by
  refine ⟨?_, ?_, ?_⟩
  · intro mirror joined length
    simp [sync_batch, pop_back_rooms_down_to_spec]
  · intro mirror joined
    simp [sync_batch, applyEffects, applyEffect]
  · intro mirror joined values mirror2 add_trace hadd
    simp [sync_batch, pop_back_rooms_down_to_spec, hadd, applyEffects,
      List.foldl_append, applyEffect]

/-- Witness for the amended C2 at a concrete input: a `Reset` replacing the
Joined room 2 with the Invited room 3 first removes room 2 individually
(emitting its `RemoveRoom`), clears, and then adds room 3. -/
theorem c2_witness :
    sync_batch [VectorDiff.reset [sampleRoom 3 .invited]]
        [sampleRoom 2 .joined] [2] =
      .ok ([sampleRoom 3 .invited],
        applyEffects [] [Effect.enqueueRoomsListUpdate (.addInvitedRoom
          { room_id := 3
            room_name := some "room"
            inviter_info := none
            room_avatar := none
            canonical_alias := none
            alt_aliases := []
            latest := none
            is_direct := false })],
        ([sampleRoom 2 .joined].reverse.flatMap remove_room) ++
          [Effect.clearAllRooms, .enqueueRoomsListUpdate .clearRooms] ++
          [Effect.enqueueRoomsListUpdate (.addInvitedRoom
            { room_id := 3
              room_name := some "room"
              inviter_info := none
              room_avatar := none
              canonical_alias := none
              alt_aliases := []
              latest := none
              is_direct := false })]) :=
  c2_per_room_removal_on_truncate_and_reset.2.2 [sampleRoom 2 .joined] [2]
    [sampleRoom 3 .invited] [sampleRoom 3 .invited]
    [Effect.enqueueRoomsListUpdate (.addInvitedRoom
      { room_id := 3
        room_name := some "room"
        inviter_info := none
        room_avatar := none
        canonical_alias := none
        alt_aliases := []
        latest := none
        is_direct := false })] rfl

/-! Claim C9. -/

/-- C9: both drain loops are coalescing.  The rooms-list drain applies every
queued update and then performs exactly one consolidated frontend push
(zero pushes when the queue is empty), with the final state being the fold
of the per-update handler followed by one displayed-lists regeneration; the
room-screen drain behaves the same for a shown room (one whose
`TimelineUiState` is present). -/
theorem c9_drain_coalesces_into_one_push :
    (∀ (st : RoomsList) (pending : List RoomsListUpdate),
      (st.handle_rooms_list_updates pending).2 =
        (if pending = [] then 0 else 1) ∧
      (pending ≠ [] →
        (st.handle_rooms_list_updates pending).1 =
          (pending.foldl RoomsList.handle_one_update st).update_displayed_rooms)) ∧
    (∀ (screen : RoomScreen) (tl : TimelineUiState)
       (pending : List TimelineUpdate),
      screen.tl_state = some tl →
      (screen.process_timeline_updates pending).2.2 =
        if pending = [] then 0 else 1) := by
  constructor
  · intro st pending
    cases pending with
    | nil => simp [RoomsList.handle_rooms_list_updates]
    | cons u us => simp [RoomsList.handle_rooms_list_updates]
  · intro screen tl pending h
    cases pending with
    | nil => simp [RoomScreen.process_timeline_updates, h]
    | cons u us => simp [RoomScreen.process_timeline_updates, h]

/-- Witness for C9 at concrete inputs: three queued rooms-list updates yield
one push, two queued timeline updates yield one push, and an empty timeline
queue yields none. -/
theorem c9_witness :
    (rooms_list_new.handle_rooms_list_updates
      [RoomsListUpdate.notLoaded, .loadedRooms (some 5), .notLoaded]).2 = 1 ∧
    (c9Screen.process_timeline_updates
      [TimelineUpdate.roomMembersSynced, .mediaFetched]).2.2 = 1 ∧
    (c9Screen.process_timeline_updates []).2.2 = 0 := by
  refine ⟨?_, ?_, ?_⟩
  · simpa using (c9_drain_coalesces_into_one_push.1 rooms_list_new
      [RoomsListUpdate.notLoaded, .loadedRooms (some 5), .notLoaded]).1
  · simpa using c9_drain_coalesces_into_one_push.2 c9Screen
      (fresh_timeline_ui_state 11)
      [TimelineUpdate.roomMembersSynced, .mediaFetched] rfl
  · simpa using c9_drain_coalesces_into_one_push.2 c9Screen
      (fresh_timeline_ui_state 11) [] rfl

/-! Claim C4. -/

/-- Counterexample for C4 as stated: the add/remove event balance of a room
id is not confined to 0 and 1.  First conjunct: appending a room in the
Left state emits no add event (Left adds are no-ops), but its later removal
emits a `RemoveRoom`, driving the balance of room 5 to minus one.  Second
conjunct: a room added while Invited that later transitions to Joined (via
a `Set` diff) gets a second add event (`AddJoinedRoom`) without any
intervening `RemoveRoom`, driving the balance of room 7 to two. -/
theorem c4_counterexample :
    (sync_batch [VectorDiff.append [sampleRoom 5 .left], VectorDiff.remove 0]
        [] []).toOption.map
        (fun r => lifecycle_balance 5 (eventsOf r.2.2)) = some (-1) ∧
    (sync_batch [VectorDiff.append [sampleRoom 7 .invited],
        VectorDiff.set 0 (sampleRoom 7 .joined)] [] []).toOption.map
        (fun r => lifecycle_balance 7 (eventsOf r.2.2)) = some 2 :=
  ⟨by decide, by decide⟩

theorem keys_assocModify {β : Type} (l : List (Nat × β)) (k : Nat)
    (f : β → β) : (assocModify l k f).map Prod.fst = l.map Prod.fst := by
  unfold assocModify
  rw [List.map_map]
  apply List.map_congr_left
  intro p _
  by_cases hp : p.1 == k <;> simp [Function.comp, hp]

theorem keys_assocInsert {β : Type} (l : List (Nat × β)) (k : Nat) (v : β) :
    (assocInsert l k v).map Prod.fst =
      if (l.find? fun p => p.1 == k).isSome then l.map Prod.fst
      else l.map Prod.fst ++ [k] := by
  unfold assocInsert
  split
  · rw [List.map_map]
    apply List.map_congr_left
    intro p _
    by_cases hp : p.1 == k
    · simp only [Function.comp_apply, if_pos hp]
      exact (eq_of_beq hp).symm
    · simp [Function.comp, hp]
  · simp

theorem keys_nodup_assocModify {β : Type} (l : List (Nat × β)) (k : Nat)
    (f : β → β) (h : keys_nodup l) : keys_nodup (assocModify l k f) := by
  unfold keys_nodup at *
  rw [keys_assocModify]
  exact h

theorem keys_nodup_assocInsert {β : Type} (l : List (Nat × β)) (k : Nat)
    (v : β) (h : keys_nodup l) : keys_nodup (assocInsert l k v) := by
  unfold keys_nodup at *
  rw [keys_assocInsert]
  split
  · exact h
  · next hfind =>
      have hk : k ∉ l.map Prod.fst := by
        intro hmem
        obtain ⟨p, hp, hpk⟩ := List.mem_map.mp hmem
        exact hfind (List.find?_isSome.mpr ⟨p, hp, by simp [hpk]⟩)
      simp [List.nodup_append, h, hk]

theorem keys_nodup_assocRemove {β : Type} (l : List (Nat × β)) (k : Nat)
    (h : keys_nodup l) : keys_nodup (assocRemove l k) :=
  h.sublist ((List.filter_sublist l).map Prod.fst)

theorem handle_one_update_preserves_keys_nodup (st : RoomsList)
    (u : RoomsListUpdate) (hj : keys_nodup st.all_joined_rooms)
    (hi : keys_nodup st.invited_rooms) :
    keys_nodup (st.handle_one_update u).all_joined_rooms ∧
    keys_nodup (st.handle_one_update u).invited_rooms := by
  cases u <;>
    simp only [RoomsList.handle_one_update, RoomsList.update_status_rooms_count] <;>
    (repeat' split) <;>
    (try dsimp only) <;>
    constructor <;>
    first
      | assumption
      | (apply keys_nodup_assocInsert; assumption)
      | (apply keys_nodup_assocModify; assumption)
      | (apply keys_nodup_assocRemove; assumption)
      | simp_all [keys_nodup]

theorem foldl_handle_preserves_keys_nodup (pending : List RoomsListUpdate) :
    ∀ st : RoomsList, keys_nodup st.all_joined_rooms →
      keys_nodup st.invited_rooms →
      keys_nodup (pending.foldl RoomsList.handle_one_update st).all_joined_rooms ∧
      keys_nodup (pending.foldl RoomsList.handle_one_update st).invited_rooms := by
  induction pending with
  | nil => intro st hj hi; exact ⟨hj, hi⟩
  | cons u us ih =>
      intro st hj hi
      have h := handle_one_update_preserves_keys_nodup st u hj hi
      exact ih (st.handle_one_update u) h.1 h.2

theorem update_displayed_rooms_preserves_maps (st : RoomsList) :
    (st.update_displayed_rooms).all_joined_rooms = st.all_joined_rooms ∧
    (st.update_displayed_rooms).invited_rooms = st.invited_rooms := by
  simp only [RoomsList.update_displayed_rooms,
    RoomsList.update_status_rooms_count, RoomsList.set_status_to_matching_rooms]
  split <;> exact ⟨rfl, rfl⟩

/-- C4 as amended: the event-count balance can leave 0-1 (see the
counterexample), but per-id uniqueness is enforced at the store level: when
the rooms-list handler drains any update queue from a state whose joined
and invited maps have pairwise-distinct keys, both maps still have
pairwise-distinct keys afterwards, so every room id occupies at most one
entry in the joined map and at most one entry in the invited map. -/
theorem c4_store_uniqueness (st : RoomsList) (pending : List RoomsListUpdate)
    (hj : keys_nodup st.all_joined_rooms) (hi : keys_nodup st.invited_rooms) :
    keys_nodup (st.handle_rooms_list_updates pending).1.all_joined_rooms ∧
    keys_nodup (st.handle_rooms_list_updates pending).1.invited_rooms ∧
    (∀ room_id : Nat,
      ((st.handle_rooms_list_updates pending).1.all_joined_rooms.map
        Prod.fst).count room_id ≤ 1 ∧
      ((st.handle_rooms_list_updates pending).1.invited_rooms.map
        Prod.fst).count room_id ≤ 1) := by
  have hfold := foldl_handle_preserves_keys_nodup pending st hj hi
  have hmain : keys_nodup (st.handle_rooms_list_updates pending).1.all_joined_rooms ∧
      keys_nodup (st.handle_rooms_list_updates pending).1.invited_rooms := by
    simp only [RoomsList.handle_rooms_list_updates]
    split
    · have hpres := update_displayed_rooms_preserves_maps
        (pending.foldl RoomsList.handle_one_update st)
      exact ⟨hpres.1 ▸ hfold.1, hpres.2 ▸ hfold.2⟩
    · exact hfold
  refine ⟨hmain.1, hmain.2, fun room_id => ?_⟩
  exact ⟨List.nodup_iff_count_le_one.mp hmain.1 room_id,
    List.nodup_iff_count_le_one.mp hmain.2 room_id⟩

/-- Witness for the amended C4 at a concrete input: draining a queue that
adds the same joined room twice still leaves a single entry for its id. -/
theorem c4_witness :
    keys_nodup (rooms_list_new.handle_rooms_list_updates
      [RoomsListUpdate.addJoinedRoom c6JoinedInfo,
       .addJoinedRoom c6JoinedInfo]).1.all_joined_rooms ∧
    keys_nodup (rooms_list_new.handle_rooms_list_updates
      [RoomsListUpdate.addJoinedRoom c6JoinedInfo,
       .addJoinedRoom c6JoinedInfo]).1.invited_rooms ∧
    (∀ room_id : Nat,
      ((rooms_list_new.handle_rooms_list_updates
        [RoomsListUpdate.addJoinedRoom c6JoinedInfo,
         .addJoinedRoom c6JoinedInfo]).1.all_joined_rooms.map
          Prod.fst).count room_id ≤ 1 ∧
      ((rooms_list_new.handle_rooms_list_updates
        [RoomsListUpdate.addJoinedRoom c6JoinedInfo,
         .addJoinedRoom c6JoinedInfo]).1.invited_rooms.map
          Prod.fst).count room_id ≤ 1) :=
  c4_store_uniqueness rooms_list_new
    [RoomsListUpdate.addJoinedRoom c6JoinedInfo, .addJoinedRoom c6JoinedInfo]
    (by simp [keys_nodup, rooms_list_new]) (by simp [keys_nodup, rooms_list_new])

/-! Claim C8. -/

/-- Counterexample for C8 as stated.  First conjunct: showing room 10 for
the first time submits the backward pagination request only *fourth*, after
three other room-specific requests (the power-levels request and the two
subscription requests), so the pagination request is not submitted before
any other room-specific async request.  Second conjunct: a pending update
queue whose drain empties a non-empty timeline (a forced-refresh scenario)
makes the first-time show submit *two* backwards pagination requests with
`num_events = 50`, so `exactly one` also fails. -/
theorem c8_counterexample :
    (RoomScreen.show_timeline
        { room_id := 10, room_name := "room ten", tl_state := none,
          members := [] } none true []).map (fun r => r.2.1) =
      some [MatrixRequest.getRoomPowerLevels 10,
        .subscribeToTypingNotices 10 true,
        .subscribeToOwnUserReadReceiptsChanged 10 true,
        .paginateRoomTimeline 10 50 .backwards,
        .syncRoomMemberList 10] ∧
    (RoomScreen.show_timeline
        { room_id := 10, room_name := "room ten", tl_state := none,
          members := [] } none true
        [TimelineUpdate.firstUpdate [{ event_id := some 1 }],
         TimelineUpdate.newItems [] 0 0 false]).map
      (fun r => r.2.1.countP fun req =>
        match req with
        | .paginateRoomTimeline _ 50 .backwards => true
        | _ => false) = some 2 :=
  ⟨rfl, by decide⟩

theorem foldl_apply_timeline_update_room_id (pending : List TimelineUpdate) :
    ∀ s : DrainState,
      (pending.foldl apply_timeline_update s).tl.room_id = s.tl.room_id := by
  induction pending with
  | nil => intro s; rfl
  | cons u us ih =>
      intro s
      rw [List.foldl_cons, ih]
      cases u <;>
        simp only [apply_timeline_update] <;>
        (repeat' split) <;>
        rfl

/-- C8 as amended: showing a room for the first time (no saved
`TimelineUiState`) submits exactly one backwards `PaginateRoomTimeline`
request with `num_events = 50` during `show_timeline` itself, positioned
after the power-levels request and the two subscription requests and before
the member-list sync request; draining the pending update queue may append
at most one further request, which is itself a backwards pagination with
`num_events = 50` for the same room. -/
theorem c8_bootstrap_pagination (screen : RoomScreen)
    (pending : List TimelineUpdate) (h : screen.tl_state = none) :
    (screen.show_timeline none true pending).map (fun r => r.2.1) =
      some ([MatrixRequest.getRoomPowerLevels screen.room_id,
        .subscribeToTypingNotices screen.room_id true,
        .subscribeToOwnUserReadReceiptsChanged screen.room_id true,
        .paginateRoomTimeline screen.room_id 50 .backwards,
        .syncRoomMemberList screen.room_id] ++
        (RoomScreen.process_timeline_updates
          { screen with
            tl_state := some (fresh_timeline_ui_state screen.room_id) }
          pending).2.1) ∧
    ((RoomScreen.process_timeline_updates
        { screen with
          tl_state := some (fresh_timeline_ui_state screen.room_id) }
        pending).2.1 = [] ∨
      (RoomScreen.process_timeline_updates
        { screen with
          tl_state := some (fresh_timeline_ui_state screen.room_id) }
        pending).2.1 =
        [MatrixRequest.paginateRoomTimeline screen.room_id 50 .backwards]) := by
  constructor
  · simp [RoomScreen.show_timeline, h, show_timeline_rest,
      fresh_timeline_ui_state]
  · have hroom := foldl_apply_timeline_update_room_id pending
      { tl := fresh_timeline_ui_state screen.room_id
        members := screen.members
        done_loading := false
        should_continue_backwards_pagination := false
        typing_users := [] }
    simp only [RoomScreen.process_timeline_updates]
    split
    · right
      rw [hroom]
      rfl
    · left
      rfl

/-- Witness for the amended C8 at a concrete input: first-time show of room
12 with an empty pending queue. -/
theorem c8_witness :
    (RoomScreen.show_timeline
        { room_id := 12, room_name := "room twelve", tl_state := none,
          members := [] } none true []).map (fun r => r.2.1) =
      some ([MatrixRequest.getRoomPowerLevels 12,
        .subscribeToTypingNotices 12 true,
        .subscribeToOwnUserReadReceiptsChanged 12 true,
        .paginateRoomTimeline 12 50 .backwards,
        .syncRoomMemberList 12] ++
        (RoomScreen.process_timeline_updates
          { room_id := 12, room_name := "room twelve",
            tl_state := some (fresh_timeline_ui_state 12), members := [] }
          []).2.1) ∧
    ((RoomScreen.process_timeline_updates
        { room_id := 12, room_name := "room twelve",
          tl_state := some (fresh_timeline_ui_state 12), members := [] }
        []).2.1 = [] ∨
      (RoomScreen.process_timeline_updates
        { room_id := 12, room_name := "room twelve",
          tl_state := some (fresh_timeline_ui_state 12), members := [] }
        []).2.1 = [MatrixRequest.paginateRoomTimeline 12 50 .backwards]) :=
  c8_bootstrap_pagination
    { room_id := 12, room_name := "room twelve", tl_state := none,
      members := [] } [] rfl

/-! Claim C10. -/

theorem assocGet_cons {β : Type} (p : Nat × β) (l : List (Nat × β))
    (id : Nat) :
    assocGet (p :: l) id = if p.1 == id then some p.2 else assocGet l id := by
  unfold assocGet
  rw [List.find?_cons]
  cases h : p.1 == id <;> simp [h]

theorem assocGet_assocModify {β : Type} (l : List (Nat × β)) (k id : Nat)
    (f : β → β) :
    assocGet (assocModify l k f) id =
      if id = k then (assocGet l id).map f else assocGet l id := by
  induction l with
  | nil =>
      simp only [assocModify, List.map_nil, assocGet, List.find?_nil,
        Option.map_none']
      split <;> rfl
  | cons p ps ih =>
      simp only [assocModify, List.map_cons] at ih ⊢
      by_cases hpk : p.1 == k
      · have hpkeq : p.1 = k := eq_of_beq hpk
        simp only [if_pos hpk]
        rw [assocGet_cons, assocGet_cons]
        by_cases hpi : p.1 == id
        · have hik : id = k := ((eq_of_beq hpi).symm).trans hpkeq
          simp [hpi, hik, hpkeq]
        · simp only [hpi, Bool.false_eq_true, if_false]
          exact ih
      · simp only [if_neg hpk]
        rw [assocGet_cons, assocGet_cons]
        by_cases hpi : p.1 == id
        · have hik : ¬ id = k := by
            intro hh
            exact hpk (by rw [← hh]; exact beq_of_eq (eq_of_beq hpi))
          simp [hpi, hik]
        · simp only [hpi, Bool.false_eq_true, if_false]
          exact ih

theorem assocGet_map_replace_self {β : Type} (l : List (Nat × β)) (k : Nat)
    (v : β) (hfind : (l.find? fun p => p.1 == k).isSome) :
    assocGet (l.map fun p => if p.1 == k then (k, v) else p) k = some v := by
  induction l with
  | nil => simp [List.find?_nil] at hfind
  | cons p ps ih =>
      rw [List.find?_cons] at hfind
      simp only [List.map_cons]
      by_cases hpk : p.1 == k
      · simp [hpk, assocGet_cons]
      · simp only [hpk, Bool.false_eq_true, if_false]
        rw [assocGet_cons]
        simp only [hpk, Bool.false_eq_true, if_false]
        simp only [hpk] at hfind
        exact ih hfind

theorem assocGet_map_replace_ne {β : Type} (l : List (Nat × β)) (k id : Nat)
    (v : β) (h : id ≠ k) :
    assocGet (l.map fun p => if p.1 == k then (k, v) else p) id =
      assocGet l id := by
  induction l with
  | nil => simp
  | cons p ps ih =>
      simp only [List.map_cons]
      by_cases hpk : p.1 == k
      · have hpi : ¬ (p.1 == id) = true := by
          intro hh
          exact h (((eq_of_beq hh).symm).trans (eq_of_beq hpk))
        have hki : ¬ (k == id) = true := by
          intro hh
          exact h (eq_of_beq hh).symm
        rw [if_pos hpk, assocGet_cons, assocGet_cons]
        simp only [hki, hpi, Bool.false_eq_true, if_false]
        exact ih
      · rw [if_neg hpk, assocGet_cons, assocGet_cons]
        cases hpi : p.1 == id
        · simp only [Bool.false_eq_true, if_false]
          exact ih
        · simp

theorem assocGet_append_single_self {β : Type} (l : List (Nat × β)) (k : Nat)
    (v : β) (hfind : ¬ (l.find? fun p => p.1 == k).isSome) :
    assocGet (l ++ [(k, v)]) k = some v := by
  induction l with
  | nil => simp [assocGet_cons]
  | cons p ps ih =>
      rw [List.find?_cons] at hfind
      rw [List.cons_append, assocGet_cons]
      cases hpk : p.1 == k with
      | true => simp [hpk] at hfind
      | false =>
          simp only [hpk, Bool.false_eq_true, if_false]
          simp only [hpk] at hfind
          exact ih hfind

theorem assocGet_append_single_ne {β : Type} (l : List (Nat × β)) (k id : Nat)
    (v : β) (h : id ≠ k) :
    assocGet (l ++ [(k, v)]) id = assocGet l id := by
  induction l with
  | nil =>
      have hki : ¬ (k == id) = true := by
        intro hh
        exact h (eq_of_beq hh).symm
      simp only [List.nil_append]
      rw [assocGet_cons]
      simp [hki, assocGet]
  | cons p ps ih =>
      rw [List.cons_append, assocGet_cons, assocGet_cons]
      cases hpi : p.1 == id
      · simp only [Bool.false_eq_true, if_false]
        exact ih
      · simp

theorem assocGet_assocInsert_self {β : Type} (l : List (Nat × β)) (k : Nat)
    (v : β) : assocGet (assocInsert l k v) k = some v := by
  unfold assocInsert
  split
  · next hfind => exact assocGet_map_replace_self l k v hfind
  · next hfind => exact assocGet_append_single_self l k v hfind

theorem assocGet_assocInsert_ne {β : Type} (l : List (Nat × β)) (k id : Nat)
    (v : β) (h : id ≠ k) :
    assocGet (assocInsert l k v) id = assocGet l id := by
  unfold assocInsert
  split
  · exact assocGet_map_replace_ne l k id v h
  · exact assocGet_append_single_ne l k id v h

theorem mem_common_effects_avatar (old_room new_room : Room) (a : Nat) :
    RoomsListUpdate.updateRoomAvatar new_room.room_id a ∈
        eventsOf (update_room_common_effects old_room new_room) ↔
      (old_room.room_avatar ≠ new_room.room_avatar ∧
        new_room.room_avatar = some a) := by
  unfold update_room_common_effects
  rcases hA : new_room.room_avatar with _ | av <;>
  rcases hN : new_room.display_name with _ | nm <;>
  rcases hT : new_room.topic with _ | tp <;>
    simp only [hA, hN, hT] <;>
    split_ifs <;>
    simp_all [eventsOf] <;>
    (try exact eq_comm)

theorem mem_common_effects_name (old_room new_room : Room) (n : String) :
    RoomsListUpdate.updateRoomName new_room.room_id n ∈
        eventsOf (update_room_common_effects old_room new_room) ↔
      (old_room.display_name ≠ new_room.display_name ∧
        new_room.display_name = some n) := by
  unfold update_room_common_effects
  rcases hA : new_room.room_avatar with _ | av <;>
  rcases hN : new_room.display_name with _ | nm <;>
  rcases hT : new_room.topic with _ | tp <;>
    simp only [hA, hN, hT] <;>
    split_ifs <;>
    simp_all [eventsOf] <;>
    (try exact eq_comm)

theorem mem_common_effects_topic (old_room new_room : Room) (t : String) :
    RoomsListUpdate.updateTopic new_room.room_id t ∈
        eventsOf (update_room_common_effects old_room new_room) ↔
      (old_room.topic ≠ new_room.topic ∧ new_room.topic = some t) := by
  unfold update_room_common_effects
  rcases hA : new_room.room_avatar with _ | av <;>
  rcases hN : new_room.display_name with _ | nm <;>
  rcases hT : new_room.topic with _ | tp <;>
    simp only [hA, hN, hT] <;>
    split_ifs <;>
    simp_all [eventsOf] <;>
    (try exact eq_comm)

theorem shape_of_if_enqueue_block (c : Prop) [Decidable c]
    (x : RoomsListUpdate) (P : RoomsListUpdate → Prop) (hx : P x) :
    ∀ u ∈ eventsOf (if c then [Effect.enqueueRoomsListUpdate x] else []),
      P u := by
  intro u hu
  split at hu
  · simp [eventsOf] at hu
    exact hu ▸ hx
  · simp [eventsOf] at hu

theorem common_effects_event_shape (old_room new_room : Room) :
    ∀ u ∈ eventsOf (update_room_common_effects old_room new_room),
      same_state_event u := by
  intro u hu
  unfold update_room_common_effects at hu
  simp only [eventsOf, List.filterMap_append, List.mem_append] at hu
  rcases hu with (h | h) | h
  · rcases hA : new_room.room_avatar with _ | av <;>
      simp only [hA] at h <;> split_ifs at h <;> simp_all [eventsOf] <;>
      (subst h; simp [same_state_event])
  · rcases hN : new_room.display_name with _ | nm <;>
      simp only [hN] at h <;> split_ifs at h <;> simp_all [eventsOf] <;>
      (subst h; simp [same_state_event])
  · rcases hT : new_room.topic with _ | tp <;>
      simp only [hT] at h <;> split_ifs at h <;> simp_all [eventsOf] <;>
      (subst h; simp [same_state_event])

theorem joined_effects_event_shape (old_room new_room : Room)
    (joined : JoinedStore) :
    ∀ u ∈ eventsOf (update_room_joined_effects old_room new_room joined),
      joined_diff_event u := by
  intro u hu
  unfold update_room_joined_effects at hu
  split at hu
  case isFalse => simp [eventsOf] at hu
  case isTrue =>
    simp only [eventsOf, List.filterMap_append, List.mem_append] at hu
    rcases hu with ((((h | h) | h) | h) | h) | h
    · unfold update_latest_event at h
      rcases hL : new_room.latest with _ | ⟨ts, tx⟩ <;>
        simp only [hL] at h <;> simp [eventsOf] at h
      subst h
      simp [joined_diff_event]
    · exact shape_of_if_enqueue_block _ _ joined_diff_event (by simp [joined_diff_event]) u h
    · exact shape_of_if_enqueue_block _ _ joined_diff_event (by simp [joined_diff_event]) u h
    · exact shape_of_if_enqueue_block _ _ joined_diff_event (by simp [joined_diff_event]) u h
    · exact shape_of_if_enqueue_block _ _ joined_diff_event (by simp [joined_diff_event]) u h
    · rcases hP : new_room.user_power_levels with _ | pl <;>
        simp only [hP] at h <;> (try split_ifs at h) <;> simp [eventsOf] at h

theorem eventsOf_append (a b : List Effect) :
    eventsOf (a ++ b) = eventsOf a ++ eventsOf b := by
  simp [eventsOf]

theorem same_state_of_joined_diff (u : RoomsListUpdate)
    (h : joined_diff_event u) : same_state_event u := by
  cases u <;> simp_all [joined_diff_event, same_state_event]

theorem assocGet_map_proj_assocModify {α β : Type} (l : List (Nat × β))
    (k id : Nat) (f : β → β) (proj : β → α)
    (hf : ∀ r, proj (f r) = proj r) :
    (assocGet (assocModify l k f) id).map proj = (assocGet l id).map proj := by
  rw [assocGet_assocModify]
  by_cases h : id = k
  · simp only [h, if_true]
    cases assocGet l k <;> simp [hf]
  · simp [h]

theorem assocGet_map_proj_assocInsert_entry {α β : Type}
    (l : List (Nat × β)) (k id : Nat) (room v : β) (proj : β → α)
    (hget : assocGet l k = some room) (hp : proj v = proj room) :
    (assocGet (assocInsert l k v) id).map proj = (assocGet l id).map proj := by
  by_cases h : id = k
  · subst h
    rw [assocGet_assocInsert_self, hget]
    simp [hp]
  · rw [assocGet_assocInsert_ne _ _ _ _ h]

theorem handle_preserves_stored_avatar (st : RoomsList) (u : RoomsListUpdate)
    (room_id : Nat) (hu : same_state_event u)
    (hnot : ∀ a, u ≠ .updateRoomAvatar room_id a) :
    (assocGet (st.handle_one_update u).all_joined_rooms room_id).map
      (fun r => r.avatar) =
    (assocGet st.all_joined_rooms room_id).map (fun r => r.avatar) := by
  cases u with
  | notLoaded => exact False.elim hu
  | loadedRooms m => exact False.elim hu
  | addInvitedRoom i => exact False.elim hu
  | addJoinedRoom i => exact False.elim hu
  | clearRooms => exact False.elim hu
  | removeRoom rid s => exact False.elim hu
  | statusUpdate s => exact False.elim hu
  | applyFilter k => exact False.elim hu
  | updateRoomAvatar rid a =>
      have hrid : ¬ room_id = rid := fun h => hnot a (by rw [h])
      simp only [RoomsList.handle_one_update]
      split
      · dsimp only
        rw [assocGet_assocModify]
        simp [hrid]
      · rfl
  | updateLatestEvent rid ts tx =>
      simp only [RoomsList.handle_one_update]
      split
      · dsimp only
        exact assocGet_map_proj_assocModify _ _ _ _ _ (fun r => rfl)
      · rfl
  | updateNumUnreadMessages rid um unm =>
      simp only [RoomsList.handle_one_update]
      split
      · dsimp only
        apply assocGet_map_proj_assocModify
        intro r
        cases um <;> rfl
      · rfl
  | updateTopic rid t =>
      simp only [RoomsList.handle_one_update]
      split
      · dsimp only
        exact assocGet_map_proj_assocModify _ _ _ _ _ (fun r => rfl)
      · rfl
  | tagsUpdate rid tg =>
      simp only [RoomsList.handle_one_update]
      split
      · dsimp only
        exact assocGet_map_proj_assocModify _ _ _ _ _ (fun r => rfl)
      · rfl
  | updateRoomName rid n =>
      simp only [RoomsList.handle_one_update]
      cases hget : assocGet st.all_joined_rooms rid with
      | some room =>
          simp only [hget]
          (repeat' split) <;> dsimp only <;>
            exact assocGet_map_proj_assocInsert_entry _ _ _ _ _ _ hget rfl
      | none =>
          simp only [hget]
          cases hget2 : assocGet st.invited_rooms rid <;>
            simp only [hget2] <;> (repeat' split) <;> rfl
  | updateIsDirect rid b =>
      simp only [RoomsList.handle_one_update]
      cases hget : assocGet st.all_joined_rooms rid with
      | some room =>
          simp only [hget]
          (repeat' split) <;> dsimp only <;>
            first
              | rfl
              | exact assocGet_map_proj_assocInsert_entry _ _ _ _ _ _ hget rfl
      | none => simp [hget]
  | tombstonedRoom rid =>
      simp only [RoomsList.handle_one_update]
      cases hget : assocGet st.all_joined_rooms rid with
      | some room =>
          simp only [hget]
          (repeat' split) <;> dsimp only <;>
            exact assocGet_map_proj_assocInsert_entry _ _ _ _ _ _ hget rfl
      | none => simp [hget]

theorem handle_preserves_stored_name (st : RoomsList) (u : RoomsListUpdate)
    (room_id : Nat) (hu : same_state_event u)
    (hnot : ∀ n, u ≠ .updateRoomName room_id n) :
    (assocGet (st.handle_one_update u).all_joined_rooms room_id).map
      (fun r => r.room_name) =
    (assocGet st.all_joined_rooms room_id).map (fun r => r.room_name) := by
  cases u with
  | notLoaded => exact False.elim hu
  | loadedRooms m => exact False.elim hu
  | addInvitedRoom i => exact False.elim hu
  | addJoinedRoom i => exact False.elim hu
  | clearRooms => exact False.elim hu
  | removeRoom rid s => exact False.elim hu
  | statusUpdate s => exact False.elim hu
  | applyFilter k => exact False.elim hu
  | updateRoomAvatar rid a =>
      simp only [RoomsList.handle_one_update]
      split
      · dsimp only
        exact assocGet_map_proj_assocModify _ _ _ _ _ (fun r => rfl)
      · rfl
  | updateLatestEvent rid ts tx =>
      simp only [RoomsList.handle_one_update]
      split
      · dsimp only
        exact assocGet_map_proj_assocModify _ _ _ _ _ (fun r => rfl)
      · rfl
  | updateNumUnreadMessages rid um unm =>
      simp only [RoomsList.handle_one_update]
      split
      · dsimp only
        apply assocGet_map_proj_assocModify
        intro r
        cases um <;> rfl
      · rfl
  | updateTopic rid t =>
      simp only [RoomsList.handle_one_update]
      split
      · dsimp only
        exact assocGet_map_proj_assocModify _ _ _ _ _ (fun r => rfl)
      · rfl
  | tagsUpdate rid tg =>
      simp only [RoomsList.handle_one_update]
      split
      · dsimp only
        exact assocGet_map_proj_assocModify _ _ _ _ _ (fun r => rfl)
      · rfl
  | updateRoomName rid n =>
      have hrid : ¬ room_id = rid := fun h => hnot n (by rw [h])
      simp only [RoomsList.handle_one_update]
      cases hget : assocGet st.all_joined_rooms rid with
      | some room =>
          simp only [hget]
          (repeat' split) <;> dsimp only <;>
            rw [assocGet_assocInsert_ne _ _ _ _ hrid]
      | none =>
          simp only [hget]
          cases hget2 : assocGet st.invited_rooms rid <;>
            simp only [hget2] <;> (repeat' split) <;> rfl
  | updateIsDirect rid b =>
      simp only [RoomsList.handle_one_update]
      cases hget : assocGet st.all_joined_rooms rid with
      | some room =>
          simp only [hget]
          (repeat' split) <;> dsimp only <;>
            first
              | rfl
              | exact assocGet_map_proj_assocInsert_entry _ _ _ _ _ _ hget rfl
      | none => simp [hget]
  | tombstonedRoom rid =>
      simp only [RoomsList.handle_one_update]
      cases hget : assocGet st.all_joined_rooms rid with
      | some room =>
          simp only [hget]
          (repeat' split) <;> dsimp only <;>
            exact assocGet_map_proj_assocInsert_entry _ _ _ _ _ _ hget rfl
      | none => simp [hget]

theorem handle_preserves_stored_topic (st : RoomsList) (u : RoomsListUpdate)
    (room_id : Nat) (hu : same_state_event u)
    (hnot : ∀ t, u ≠ .updateTopic room_id t) :
    (assocGet (st.handle_one_update u).all_joined_rooms room_id).map
      (fun r => r.topic) =
    (assocGet st.all_joined_rooms room_id).map (fun r => r.topic) := by
  cases u with
  | notLoaded => exact False.elim hu
  | loadedRooms m => exact False.elim hu
  | addInvitedRoom i => exact False.elim hu
  | addJoinedRoom i => exact False.elim hu
  | clearRooms => exact False.elim hu
  | removeRoom rid s => exact False.elim hu
  | statusUpdate s => exact False.elim hu
  | applyFilter k => exact False.elim hu
  | updateRoomAvatar rid a =>
      simp only [RoomsList.handle_one_update]
      split
      · dsimp only
        exact assocGet_map_proj_assocModify _ _ _ _ _ (fun r => rfl)
      · rfl
  | updateLatestEvent rid ts tx =>
      simp only [RoomsList.handle_one_update]
      split
      · dsimp only
        exact assocGet_map_proj_assocModify _ _ _ _ _ (fun r => rfl)
      · rfl
  | updateNumUnreadMessages rid um unm =>
      simp only [RoomsList.handle_one_update]
      split
      · dsimp only
        apply assocGet_map_proj_assocModify
        intro r
        cases um <;> rfl
      · rfl
  | updateTopic rid t =>
      have hrid : ¬ room_id = rid := fun h => hnot t (by rw [h])
      simp only [RoomsList.handle_one_update]
      split
      · dsimp only
        rw [assocGet_assocModify]
        simp [hrid]
      · rfl
  | tagsUpdate rid tg =>
      simp only [RoomsList.handle_one_update]
      split
      · dsimp only
        exact assocGet_map_proj_assocModify _ _ _ _ _ (fun r => rfl)
      · rfl
  | updateRoomName rid n =>
      simp only [RoomsList.handle_one_update]
      cases hget : assocGet st.all_joined_rooms rid with
      | some room =>
          simp only [hget]
          (repeat' split) <;> dsimp only <;>
            exact assocGet_map_proj_assocInsert_entry _ _ _ _ _ _ hget rfl
      | none =>
          simp only [hget]
          cases hget2 : assocGet st.invited_rooms rid <;>
            simp only [hget2] <;> (repeat' split) <;> rfl
  | updateIsDirect rid b =>
      simp only [RoomsList.handle_one_update]
      cases hget : assocGet st.all_joined_rooms rid with
      | some room =>
          simp only [hget]
          (repeat' split) <;> dsimp only <;>
            first
              | rfl
              | exact assocGet_map_proj_assocInsert_entry _ _ _ _ _ _ hget rfl
      | none => simp [hget]
  | tombstonedRoom rid =>
      simp only [RoomsList.handle_one_update]
      cases hget : assocGet st.all_joined_rooms rid with
      | some room =>
          simp only [hget]
          (repeat' split) <;> dsimp only <;>
            exact assocGet_map_proj_assocInsert_entry _ _ _ _ _ _ hget rfl
      | none => simp [hget]

theorem foldl_handle_preserves_proj {α : Type} (proj : JoinedRoomInfo → α)
    (room_id : Nat) :
    ∀ (evs : List RoomsListUpdate) (st : RoomsList),
      (∀ u ∈ evs, ∀ st2 : RoomsList,
        (assocGet (st2.handle_one_update u).all_joined_rooms room_id).map proj =
        (assocGet st2.all_joined_rooms room_id).map proj) →
      (assocGet (evs.foldl RoomsList.handle_one_update st).all_joined_rooms
        room_id).map proj =
      (assocGet st.all_joined_rooms room_id).map proj := by
  intro evs
  induction evs with
  | nil => intro st h; rfl
  | cons u us ih =>
      intro st h
      rw [List.foldl_cons,
        ih (st.handle_one_update u)
          (fun v hv st2 => h v (List.mem_cons_of_mem u hv) st2)]
      exact h u (List.mem_cons_self u us) st

theorem drain_preserves_proj {α : Type} (proj : JoinedRoomInfo → α)
    (room_id : Nat) (evs : List RoomsListUpdate) (st : RoomsList)
    (h : ∀ u ∈ evs, ∀ st2 : RoomsList,
      (assocGet (st2.handle_one_update u).all_joined_rooms room_id).map proj =
      (assocGet st2.all_joined_rooms room_id).map proj) :
    (assocGet (st.handle_rooms_list_updates evs).1.all_joined_rooms
      room_id).map proj =
    (assocGet st.all_joined_rooms room_id).map proj := by
  simp only [RoomsList.handle_rooms_list_updates]
  split
  · dsimp only
    rw [(update_displayed_rooms_preserves_maps _).1]
    exact foldl_handle_preserves_proj proj room_id evs st h
  · dsimp only
    exact foldl_handle_preserves_proj proj room_id evs st h

/-- C10: for a same-id, same-lifecycle-state `update_room` call, an
`UpdateRoomAvatar`, `UpdateRoomName` or `UpdateTopic` event is emitted if
and only if the corresponding field differs between the snapshots and the
new value is present (first three conjuncts); and when a field went from
present to absent, no event for it is emitted, so draining the emitted
events through the rooms-list handler leaves the stored value of that field
unchanged for that room id (last three conjuncts). -/
theorem c10_granular_field_updates (old_room new_room : Room)
    (joined : JoinedStore) (trace : List Effect)
    (hid : old_room.room_id = new_room.room_id)
    (hst : old_room.state = new_room.state)
    (hok : update_room old_room new_room joined = .ok trace) :
    (∀ a, RoomsListUpdate.updateRoomAvatar new_room.room_id a ∈
        eventsOf trace ↔
      (old_room.room_avatar ≠ new_room.room_avatar ∧
        new_room.room_avatar = some a)) ∧
    (∀ n, RoomsListUpdate.updateRoomName new_room.room_id n ∈
        eventsOf trace ↔
      (old_room.display_name ≠ new_room.display_name ∧
        new_room.display_name = some n)) ∧
    (∀ t, RoomsListUpdate.updateTopic new_room.room_id t ∈ eventsOf trace ↔
      (old_room.topic ≠ new_room.topic ∧ new_room.topic = some t)) ∧
    (new_room.room_avatar = none → ∀ st : RoomsList,
      (assocGet (st.handle_rooms_list_updates
          (eventsOf trace)).1.all_joined_rooms new_room.room_id).map
        (fun r => r.avatar) =
      (assocGet st.all_joined_rooms new_room.room_id).map
        (fun r => r.avatar)) ∧
    (new_room.display_name = none → ∀ st : RoomsList,
      (assocGet (st.handle_rooms_list_updates
          (eventsOf trace)).1.all_joined_rooms new_room.room_id).map
        (fun r => r.room_name) =
      (assocGet st.all_joined_rooms new_room.room_id).map
        (fun r => r.room_name)) ∧
    (new_room.topic = none → ∀ st : RoomsList,
      (assocGet (st.handle_rooms_list_updates
          (eventsOf trace)).1.all_joined_rooms new_room.room_id).map
        (fun r => r.topic) =
      (assocGet st.all_joined_rooms new_room.room_id).map
        (fun r => r.topic)) := by
  have hroute : update_room old_room new_room joined =
      .ok (update_room_common_effects old_room new_room ++
           update_room_joined_effects old_room new_room joined) := by
    unfold update_room
    rw [if_pos hid, if_neg (not_not_intro hst)]
  have htr : trace = update_room_common_effects old_room new_room ++
      update_room_joined_effects old_room new_room joined :=
    (Except.ok.inj (hroute.symm.trans hok)).symm
  subst htr
  have hJav : ∀ a, RoomsListUpdate.updateRoomAvatar new_room.room_id a ∉
      eventsOf (update_room_joined_effects old_room new_room joined) := by
    intro a hmem
    exact absurd (joined_effects_event_shape old_room new_room joined _ hmem)
      (by simp [joined_diff_event])
  have hJnm : ∀ n, RoomsListUpdate.updateRoomName new_room.room_id n ∉
      eventsOf (update_room_joined_effects old_room new_room joined) := by
    intro n hmem
    exact absurd (joined_effects_event_shape old_room new_room joined _ hmem)
      (by simp [joined_diff_event])
  have hJtp : ∀ t, RoomsListUpdate.updateTopic new_room.room_id t ∉
      eventsOf (update_room_joined_effects old_room new_room joined) := by
    intro t hmem
    exact absurd (joined_effects_event_shape old_room new_room joined _ hmem)
      (by simp [joined_diff_event])
  have hshape : ∀ u ∈ eventsOf (update_room_common_effects old_room new_room ++
      update_room_joined_effects old_room new_room joined),
      same_state_event u := by
    intro u hu
    rw [eventsOf_append, List.mem_append] at hu
    rcases hu with h | h
    · exact common_effects_event_shape old_room new_room u h
    · exact same_state_of_joined_diff u
        (joined_effects_event_shape old_room new_room joined u h)
  refine ⟨?_, ?_, ?_, ?_, ?_, ?_⟩
  · intro a
    rw [eventsOf_append, List.mem_append]
    constructor
    · rintro (h | h)
      · exact (mem_common_effects_avatar old_room new_room a).mp h
      · exact absurd h (hJav a)
    · intro hcond
      exact Or.inl ((mem_common_effects_avatar old_room new_room a).mpr hcond)
  · intro n
    rw [eventsOf_append, List.mem_append]
    constructor
    · rintro (h | h)
      · exact (mem_common_effects_name old_room new_room n).mp h
      · exact absurd h (hJnm n)
    · intro hcond
      exact Or.inl ((mem_common_effects_name old_room new_room n).mpr hcond)
  · intro t
    rw [eventsOf_append, List.mem_append]
    constructor
    · rintro (h | h)
      · exact (mem_common_effects_topic old_room new_room t).mp h
      · exact absurd h (hJtp t)
    · intro hcond
      exact Or.inl ((mem_common_effects_topic old_room new_room t).mpr hcond)
  · intro hA st
    apply drain_preserves_proj
    intro u hu st2
    apply handle_preserves_stored_avatar st2 u new_room.room_id (hshape u hu)
    intro a heq
    subst heq
    rw [eventsOf_append, List.mem_append] at hu
    rcases hu with h | h
    · have hc := (mem_common_effects_avatar old_room new_room a).mp h
      rw [hA] at hc
      exact absurd hc.2 (by simp)
    · exact hJav a h
  · intro hN st
    apply drain_preserves_proj
    intro u hu st2
    apply handle_preserves_stored_name st2 u new_room.room_id (hshape u hu)
    intro n heq
    subst heq
    rw [eventsOf_append, List.mem_append] at hu
    rcases hu with h | h
    · have hc := (mem_common_effects_name old_room new_room n).mp h
      rw [hN] at hc
      exact absurd hc.2 (by simp)
    · exact hJnm n h
  · intro hT st
    apply drain_preserves_proj
    intro u hu st2
    apply handle_preserves_stored_topic st2 u new_room.room_id (hshape u hu)
    intro t heq
    subst heq
    rw [eventsOf_append, List.mem_append] at hu
    rcases hu with h | h
    · have hc := (mem_common_effects_topic old_room new_room t).mp h
      rw [hT] at hc
      exact absurd hc.2 (by simp)
    · exact hJtp t h

/-- Witness for C10 at a concrete input: room 4 stays Joined while its
avatar changes to a new present value (event emitted) and its display name
goes absent (no event; the stored name survives the drain). -/
theorem c10_witness :
    ((RoomsListUpdate.updateRoomAvatar 4 9 ∈ eventsOf c10Trace) ↔
      (c10OldRoom.room_avatar ≠ c10NewRoom.room_avatar ∧
        c10NewRoom.room_avatar = some 9)) ∧
    ((RoomsListUpdate.updateRoomName 4 "x" ∈ eventsOf c10Trace) ↔
      (c10OldRoom.display_name ≠ c10NewRoom.display_name ∧
        c10NewRoom.display_name = some "x")) ∧
    (assocGet (rooms_list_new.handle_rooms_list_updates
        (eventsOf c10Trace)).1.all_joined_rooms 4).map
      (fun r => r.room_name) =
    (assocGet rooms_list_new.all_joined_rooms 4).map
      (fun r => r.room_name) := by
  have h := c10_granular_field_updates c10OldRoom c10NewRoom [] c10Trace
    rfl rfl rfl
  exact ⟨h.1 9, h.2.1 "x", h.2.2.2.2.1 rfl rooms_list_new⟩

end MatrixUi
